import Mathlib

/-!
Verification of the counting / session / attribution engine of the
`event_bridge` service (`src/deploy/event_bridge/app.py`) and of the
tripwire tracker (`src/core/tripwire.py`).

The Python code keeps all durable state in SQLite tables; the embedding
represents that store as an explicit `DB` record that every operation
threads through.  Timestamps are ISO-8601 strings in the source, compared
lexicographically (which coincides with chronological order for a fixed
format); they are modelled as integers with the same comparisons.
Box coordinates are floats in the source and are modelled as rationals.
Each `def` below mirrors one Python function of the same name.
-/

namespace EventBridge

/-- Constant `LEFT_EXIT_WINDOW_SECONDS = 30` from app.py. -/
def LEFT_EXIT_WINDOW_SECONDS : Int := 30

/-- Constant `LEFT_EXIT_MAX_EXTRA_PEOPLE = 4` from app.py. -/
def LEFT_EXIT_MAX_EXTRA_PEOPLE : Nat := 4

/-- Constant `MAX_ACTIVE_VEHICLE_EXIT_SESSIONS = 2` from app.py. -/
def MAX_ACTIVE_VEHICLE_EXIT_SESSIONS : Nat := 2

/-- Constant `VIRTUAL_GATE_LINE_X = 320` from app.py. -/
def VIRTUAL_GATE_LINE_X : ℚ := 320

/-- Constant `INSIDE_SIDE = "right"` from app.py. -/
def INSIDE_SIDE : String := "right"

/-- Constant `GATE_DEBOUNCE_UPDATES = 2` from app.py. -/
def GATE_DEBOUNCE_UPDATES : Nat := 2

/-- Constant `TRACK_TTL_SECONDS = 300` from app.py. -/
def TRACK_TTL_SECONDS : Int := 300

/-- Constant `ALERT_COOLDOWN_SECONDS = 900` from app.py. -/
def ALERT_COOLDOWN_SECONDS : Int := 900

/-- Constant `DRIVER_LINK_WINDOW_SECONDS = 60` from app.py. -/
def DRIVER_LINK_WINDOW_SECONDS : Int := 60

/-- Constant `DEDUPE_SECONDS = 15` from app.py. -/
def DEDUPE_SECONDS : Int := 15

/-- Constant `MATCH_VEHICLE_REENTRY_SECONDS = 86400` from app.py. -/
def MATCH_VEHICLE_REENTRY_SECONDS : Int := 86400

/-- Constant `PTZ_AUTO_RETURN_SECONDS = 300` from app.py. -/
def PTZ_AUTO_RETURN_SECONDS : Int := 300

/-- One row of the `object_tracks` table. -/
structure Track where
  label : String
  lastSeen : Int
  lastSide : Option String
  countedIn : Bool
  countedOut : Bool
deriving Repr, DecidableEq

/-- One row of the `vehicle_exit_sessions` table.  The source keys rows by a
uuid string; the model uses a numeric id with the same uniqueness role. -/
structure ExitSession where
  sessionId : Nat
  startedAt : Int
  camera : Option String
  vehicleTrackKey : String
  active : Bool
  leftPersonDecrements : Nat
  maxLeftPersonDecrements : Nat
deriving Repr, DecidableEq

/-- One row of the `counter_events` audit table. -/
structure CounterEvent where
  ts : Int
  label : String
  direction : String
  delta : Int
  newCount : Int
  trackKey : String
  source : String
  note : String
deriving Repr, DecidableEq

/-- One row of the `person_sessions` table. -/
structure PersonSession where
  sid : Nat
  personKey : Option String
  camera : Option String
  enteredAt : Int
  source : String
  exitedAt : Option Int
deriving Repr, DecidableEq

/-- One row of the `vehicle_sessions` table. -/
structure VehicleSession where
  sid : Nat
  vehicleKey : Option String
  plateNorm : Option String
  vehicleType : String
  camera : Option String
  enteredAt : Int
  source : String
  exitedAt : Option Int
  timeOutsideSeconds : Option Int
deriving Repr, DecidableEq

/-- One row of the `driver_attribution` table (evidence json omitted: no
claim concerns it). -/
structure AttrRow where
  ts : Int
  direction : String
  personIdentity : String
  vehicleIdentity : String
  vehicleSessionId : Option Nat
  personSessionId : Option Nat
deriving Repr, DecidableEq

/-- The durable store plus the in-memory `side_streaks` dict.  `object_tracks`
has `track_key` as primary key, so the table is a map from keys to rows;
`side_streaks.get(key, ("", 0))` defaults to `("", 0)`. -/
structure DB where
  peopleCount : Int
  vehicleCount : Int
  tracks : String → Option Track
  streaks : String → String × Nat
  exitSessions : List ExitSession
  counterEvents : List CounterEvent
  personSessions : List PersonSession
  vehicleSessions : List VehicleSession
  attributions : List AttrRow

/-- The state created by `init_db`: counters row `(1, 0, 0)`, empty tables. -/
def initDB : DB :=
  { peopleCount := 0
    vehicleCount := 0
    tracks := fun _ => none
    streaks := fun _ => ("", 0)
    exitSessions := []
    counterEvents := []
    personSessions := []
    vehicleSessions := []
    attributions := [] }

/-- One inbound detection event, with the payload fields `handle_counting`
reads (`after.*` fields are the nested `after` dict of Frigate payloads). -/
structure Payload where
  camera : Option String
  label : Option String
  pid : Option String
  eventId : Option String
  direction : Option String
  afterId : Option String
  afterEventId : Option String
  afterDirection : Option String
  box : Option (List ℚ)
  afterBox : Option (List ℚ)
  plate : Option String
  plateText : Option String
  plateNumber : Option String
  ocrPlate : Option String
  licensePlate : Option String
deriving Repr, DecidableEq

/-- Payload with every field absent, for building concrete test events. -/
def emptyPayload : Payload :=
  { camera := none, label := none, pid := none, eventId := none
    direction := none, afterId := none, afterEventId := none
    afterDirection := none, box := none, afterBox := none
    plate := none, plateText := none, plateNumber := none
    ocrPlate := none, licensePlate := none }

/-- ASCII whitespace test backing Python `str.strip()` (the labels and plates
this system handles are ASCII). -/
def pyIsSpace (c : Char) : Bool :=
  c = ' ' ∨ c = '\t' ∨ c = '\n' ∨ c = '\r' ∨ c = Char.ofNat 11 ∨ c = Char.ofNat 12

/-- Python `str.strip()`: drop whitespace from both ends. -/
def pyStrip (s : String) : String :=
  String.mk (((s.toList.dropWhile pyIsSpace).reverse.dropWhile pyIsSpace).reverse)

/-- ASCII lower-casing of one character (Python `str.lower()`). -/
def pyLowerChar (c : Char) : Char :=
  if 'A' ≤ c ∧ c ≤ 'Z' then Char.ofNat (c.toNat + 32) else c

/-- Python `str.lower()` over ASCII strings. -/
def pyLower (s : String) : String := String.mk (s.toList.map pyLowerChar)

/-- ASCII upper-casing of one character (Python `str.upper()`). -/
def pyUpperChar (c : Char) : Char :=
  if 'a' ≤ c ∧ c ≤ 'z' then Char.ofNat (c.toNat - 32) else c

/-- Python `str.upper()` over ASCII strings. -/
def pyUpper (s : String) : String := String.mk (s.toList.map pyUpperChar)

/-- Python `re.sub(r"[^A-Z0-9]", "", (text or "").upper())`. -/
def normalize_plate (text : String) : String :=
  String.mk ((pyUpper text).toList.filter
    (fun c => ('A' ≤ c ∧ c ≤ 'Z') ∨ ('0' ≤ c ∧ c ≤ '9')))

/-- Python `extract_plate`: loop over the keys `plate`, `plate_text`,
`plate_number`, `ocr_plate`, `license_plate`; return the first value that is
a string with non-blank content, else `""`. -/
def extract_plate (p : Payload) : String :=
  let candidates := [p.plate, p.plateText, p.plateNumber, p.ocrPlate, p.licensePlate]
  match candidates.find? (fun v => match v with
    | some s => pyStrip s ≠ ""
    | none => false) with
  | some (some s) => s
  | _ => ""

/-- Python `normalize_object_label`: strip/lowercase plus the alias table
(`people/human/man/woman` to `person`, two-wheelers to `car`, `bus` to
`truck`); non-strings and empty results become `"unknown"`. -/
def normalize_object_label (label : Option String) : String :=
  match label with
  | none => "unknown"
  | some s =>
    let normalized := pyLower (pyStrip s)
    if normalized = "people" then "person"
    else if normalized = "human" then "person"
    else if normalized = "man" then "person"
    else if normalized = "woman" then "person"
    else if normalized = "bicycle" then "car"
    else if normalized = "motorbike" then "car"
    else if normalized = "motorcycle" then "car"
    else if normalized = "bus" then "truck"
    else if normalized = "" then "unknown"
    else normalized

/-- Python truthiness fallback `a or b` for optional strings: an absent or
empty string falls through to the alternative. -/
def orStr (a b : Option String) : Option String :=
  match a with
  | some s => if s = "" then b else some s
  | none => b

/-- Python `get_track_key`: `camera:label:track_id`, where the id is the
first truthy of `id`, `event_id`, `after.id`, `after.event_id`. -/
def get_track_key (p : Payload) : Option String :=
  let camera := match orStr p.camera (some "cam") with
    | some c => c
    | none => "cam"
  let label := normalize_object_label p.label
  let trackId := orStr (orStr (orStr p.pid p.eventId) p.afterId) p.afterEventId
  match trackId with
  | none => none
  | some tid => some (camera ++ ":" ++ label ++ ":" ++ tid)

/-- Python `get_track`: look up the `object_tracks` row with the key. -/
def get_track (key : String) (db : DB) : Option Track :=
  db.tracks key

/-- Python `upsert_track`: insert with zero flags, or on conflict overwrite
`label`, `last_seen_utc` and `last_side` while keeping the counted flags. -/
def upsert_track (now : Int) (key lbl : String) (side : Option String) (db : DB) : DB :=
  match db.tracks key with
  | none =>
    { db with tracks := fun k =>
        if k = key then some ⟨lbl, now, side, false, false⟩ else db.tracks k }
  | some t =>
    { db with tracks := fun k =>
        if k = key then some { t with label := lbl, lastSeen := now, lastSide := side }
        else db.tracks k }

/-- Python `update_track_side`: `UPDATE object_tracks SET last_seen, last_side
WHERE track_key = key` (no row, no effect). -/
def update_track_side (now : Int) (key : String) (side : Option String) (db : DB) : DB :=
  match db.tracks key with
  | none => db
  | some t =>
    { db with tracks := fun k =>
        if k = key then some { t with lastSeen := now, lastSide := side }
        else db.tracks k }

/-- Python `mark_track_counted`: set `counted_in` or `counted_out` (and
`last_seen_utc`) for the track; other directions are ignored. -/
def mark_track_counted (now : Int) (key dir : String) (db : DB) : DB :=
  if dir ≠ "in" ∧ dir ≠ "out" then db
  else
    match db.tracks key with
    | none => db
    | some t =>
      let t2 := if dir = "in" then { t with countedIn := true, lastSeen := now }
                else { t with countedOut := true, lastSeen := now }
      { db with tracks := fun k => if k = key then some t2 else db.tracks k }

/-- Python `cleanup_tracks`: `DELETE FROM object_tracks WHERE last_seen_utc <
now - TRACK_TTL_SECONDS`. -/
def cleanup_tracks (now : Int) (db : DB) : DB :=
  { db with tracks := fun k =>
      match db.tracks k with
      | none => none
      | some t => if t.lastSeen < now - TRACK_TTL_SECONDS then none else some t }

/-- Python `close_expired_sessions`: deactivate active exit sessions started
before `now - LEFT_EXIT_WINDOW_SECONDS`. -/
def close_expired_sessions (now : Int) (db : DB) : DB :=
  { db with exitSessions := db.exitSessions.map (fun s =>
      if s.active ∧ s.startedAt < now - LEFT_EXIT_WINDOW_SECONDS
      then { s with active := false } else s) }

/-- Number of active exit sessions (`SELECT COUNT(*) ... WHERE active = 1`). -/
def countActive (ss : List ExitSession) : Nat :=
  ss.countP (fun s => s.active)

/-- Smallest `started_at_utc` among active exit sessions, if any: the head of
the source query `... WHERE active = 1 ORDER BY started_at_utc ASC`. -/
def minActiveStart : List ExitSession → Option Int
  | [] => none
  | s :: rest =>
    match minActiveStart rest with
    | none => if s.active then some s.startedAt else none
    | some m => if s.active then some (min s.startedAt m) else some m

/-- Deactivate the first active session carrying the given `started_at`. -/
def closeFirstWith (t : Int) : List ExitSession → List ExitSession
  | [] => []
  | s :: rest =>
    if s.active ∧ s.startedAt = t then { s with active := false } :: rest
    else s :: closeFirstWith t rest

/-- Close one oldest active exit session (one element of the source's
oldest-first `to_close` list). -/
def closeOldestActive (ss : List ExitSession) : List ExitSession :=
  match minActiveStart ss with
  | none => ss
  | some t => closeFirstWith t ss

/-- Close the `k` oldest active exit sessions, oldest first. -/
def closeKOldest : Nat → List ExitSession → List ExitSession
  | 0, ss => ss
  | k + 1, ss => closeKOldest k (closeOldestActive ss)

/-- Python `enforce_session_limit`: read the active sessions ordered by
`started_at_utc ASC` and, when more than `MAX_ACTIVE_VEHICLE_EXIT_SESSIONS`
are active, deactivate the excess prefix (the oldest ones).  Closing the
`n - MAX` head rows of the ascending order is modelled as closing an active
session of minimal `started_at` that many times. -/
def enforce_session_limit (ss : List ExitSession) : List ExitSession :=
  let n := countActive ss
  if n > MAX_ACTIVE_VEHICLE_EXIT_SESSIONS
  then closeKOldest (n - MAX_ACTIVE_VEHICLE_EXIT_SESSIONS) ss
  else ss

/-- Python `create_vehicle_exit_session`: insert an active session with zero
decrements used and `LEFT_EXIT_MAX_EXTRA_PEOPLE` allowed.  The uuid key is
modelled as a fresh numeric id. -/
def create_vehicle_exit_session (now : Int) (camera : Option String)
    (key : String) (ss : List ExitSession) : List ExitSession :=
  ss ++ [⟨ss.length + 1, now, camera, key, true, 0, LEFT_EXIT_MAX_EXTRA_PEOPLE⟩]

/-- Head row of `SELECT ... FROM vehicle_exit_sessions WHERE active = 1 ORDER
BY started_at_utc DESC`: an active session with maximal `started_at` (the
earliest such row on ties; SQL leaves the tie order unspecified). -/
def mostRecentActive : List ExitSession → Option ExitSession
  | [] => none
  | s :: rest =>
    if s.active then
      match mostRecentActive rest with
      | none => some s
      | some t => if t.startedAt > s.startedAt then some t else some s
    else mostRecentActive rest

/-- Python `apply_left_exit_decrement`: take the most recently started active
exit session; fail if there is none; close it and fail if its window expired
or its allowance is consumed; otherwise count one more decrement against it
and succeed. -/
def apply_left_exit_decrement (now : Int) (ss : List ExitSession) :
    Bool × List ExitSession :=
  match mostRecentActive ss with
  | none => (false, ss)
  | some s =>
    if now - s.startedAt > LEFT_EXIT_WINDOW_SECONDS then
      (false, ss.map (fun x => if x.sessionId = s.sessionId then { x with active := false } else x))
    else if s.leftPersonDecrements ≥ s.maxLeftPersonDecrements then
      (false, ss.map (fun x => if x.sessionId = s.sessionId then { x with active := false } else x))
    else
      (true, ss.map (fun x =>
        if x.sessionId = s.sessionId
        then { x with leftPersonDecrements := x.leftPersonDecrements + 1 } else x))

/-- Head row of an `ORDER BY f DESC LIMIT 1` query over a filtered table:
an element with maximal key (the earliest such element on ties; SQL leaves
the tie order unspecified). -/
def latestBy {α : Type} (f : α → Int) : List α → Option α
  | [] => none
  | x :: rest =>
    match latestBy f rest with
    | none => some x
    | some y => if f y > f x then some y else some x

/-- Python `log_counter_event`: append one audit row. -/
def log_counter_event (now : Int) (lbl dir : String) (delta newCount : Int)
    (key source note : String) (db : DB) : DB :=
  { db with counterEvents :=
      db.counterEvents ++ [⟨now, lbl, dir, delta, newCount, key, source, note⟩] }

/-- Python `update_counters`: write both counters back to `counters_state`. -/
def update_counters (pc vc : Int) (db : DB) : DB :=
  { db with peopleCount := pc, vehicleCount := vc }

/-- Python `open_person_session`: insert a row and return its rowid. -/
def open_person_session (now : Int) (personKey camera : Option String)
    (source : String) (db : DB) : Option Nat × DB :=
  let sid := db.personSessions.length + 1
  (some sid,
   { db with personSessions :=
       db.personSessions ++ [⟨sid, personKey, camera, now, source, none⟩] })

/-- Python `close_person_session`: stamp `exited_at_utc` on the most recently
entered open session, filtered by the person key when that key is truthy. -/
def close_person_session (now : Int) (personKey : Option String) (db : DB) :
    Option Nat × DB :=
  let keyFilter : PersonSession → Bool := fun s =>
    match personKey with
    | some k => if k = "" then true else decide (s.personKey = some k)
    | none => true
  let openRows := db.personSessions.filter
    (fun s => decide (s.exitedAt = none) && keyFilter s)
  match latestBy (fun s => s.enteredAt) openRows with
  | none => (none, db)
  | some s =>
    (some s.sid,
     { db with personSessions := db.personSessions.map (fun x =>
         if x.sid = s.sid then { x with exitedAt := some now } else x) })

/-- Python `find_recent_person_session`: for `out`, the most recently exited
session; otherwise the most recently entered one; returned only when its
boundary timestamp is within `DRIVER_LINK_WINDOW_SECONDS` of the event. -/
def find_recent_person_session (direction : String) (eventTime : Int)
    (db : DB) : Option Nat :=
  if direction = "out" then
    let rows := db.personSessions.filter (fun s => decide (s.exitedAt ≠ none))
    match latestBy (fun s => s.exitedAt.getD 0) rows with
    | none => none
    | some s =>
      match s.exitedAt with
      | none => none
      | some ts =>
        if |eventTime - ts| ≤ DRIVER_LINK_WINDOW_SECONDS then some s.sid else none
  else
    match latestBy (fun s => s.enteredAt) db.personSessions with
    | none => none
    | some s =>
      if |eventTime - s.enteredAt| ≤ DRIVER_LINK_WINDOW_SECONDS then some s.sid else none

/-- Python `open_vehicle_session`: insert a row and return its rowid. -/
def open_vehicle_session (now : Int) (vehicleKey plateNorm : Option String)
    (vtype : String) (camera : Option String) (source : String) (db : DB) :
    Option Nat × DB :=
  let sid := db.vehicleSessions.length + 1
  (some sid,
   { db with vehicleSessions :=
       db.vehicleSessions ++
         [⟨sid, vehicleKey, plateNorm, vtype, camera, now, source, none, none⟩] })

/-- Select filter of `close_vehicle_session` / `update_time_outside`: by plate
when truthy, else by vehicle key when truthy, else by vehicle type. -/
def vehicleMatch (vehicleKey plateNorm : Option String) (vtype : String)
    (s : VehicleSession) : Bool :=
  match plateNorm with
  | some pn =>
    if pn = "" then
      match vehicleKey with
      | some vk => if vk = "" then decide (s.vehicleType = vtype)
                   else decide (s.vehicleKey = some vk)
      | none => decide (s.vehicleType = vtype)
    else decide (s.plateNorm = some pn)
  | none =>
    match vehicleKey with
    | some vk => if vk = "" then decide (s.vehicleType = vtype)
                 else decide (s.vehicleKey = some vk)
    | none => decide (s.vehicleType = vtype)

/-- Python `close_vehicle_session`: stamp `exited_at_utc` on the most recently
entered open session matching plate / key / type, returning its id. -/
def close_vehicle_session (now : Int) (vehicleKey plateNorm : Option String)
    (vtype : String) (db : DB) : Option Nat × DB :=
  let openRows := db.vehicleSessions.filter
    (fun s => decide (s.exitedAt = none) && vehicleMatch vehicleKey plateNorm vtype s)
  match latestBy (fun s => s.enteredAt) openRows with
  | none => (none, db)
  | some s =>
    (some s.sid,
     { db with vehicleSessions := db.vehicleSessions.map (fun x =>
         if x.sid = s.sid then { x with exitedAt := some now } else x) })

/-- Python `update_time_outside`: back-fill `time_outside_seconds` of the most
recently exited matching session, when the re-entry is within
`MATCH_VEHICLE_REENTRY_SECONDS` and the delta is non-negative. -/
def update_time_outside (now : Int) (plateNorm vehicleKey : Option String)
    (vtype : String) (enteredAt : Int) (db : DB) : DB :=
  let rows := db.vehicleSessions.filter (fun s =>
    decide (s.exitedAt ≠ none) && decide (s.timeOutsideSeconds = none) &&
      vehicleMatch vehicleKey plateNorm vtype s)
  match latestBy (fun s => s.exitedAt.getD 0) rows with
  | none => db
  | some s =>
    match s.exitedAt with
    | none => db
    | some exited =>
      if exited < now - MATCH_VEHICLE_REENTRY_SECONDS then db
      else
        let delta := enteredAt - exited
        if delta < 0 then db
        else
          { db with vehicleSessions := db.vehicleSessions.map (fun x =>
              if x.sid = s.sid then { x with timeOutsideSeconds := some delta } else x) }

/-- Python `insert_driver_attribution`: skip when a row with the same
(person, vehicle, direction) tuple exists with `ts_utc >= now - DEDUPE_SECONDS`,
else append the new row stamped `now`. -/
def insert_driver_attribution (now : Int) (dir pid vid : String)
    (vsid psid : Option Nat) (db : DB) : DB :=
  if db.attributions.any (fun r => decide
      (r.personIdentity = pid ∧ r.vehicleIdentity = vid ∧ r.direction = dir ∧
       r.ts ≥ now - DEDUPE_SECONDS)) then db
  else { db with attributions := db.attributions ++ [⟨now, dir, pid, vid, vsid, psid⟩] }

/-- Python `get_person_identity_for_session`: the resolver stub always
answers `"unknown_person"`. -/
def get_person_identity_for_session (sessionId : Option Nat) : String :=
  "unknown_person"

/-- Python `resolve_vehicle_identity`: plate when truthy, else a synthetic
per-session identity, else `"unknown_vehicle"`. -/
def resolve_vehicle_identity (plateNorm : Option String)
    (sessionId : Option Nat) : String :=
  let fallback : String :=
    match sessionId with
    | some i => if i = 0 then "unknown_vehicle" else "unknown_vehicle_" ++ toString i
    | none => "unknown_vehicle"
  match plateNorm with
  | some p => if p = "" then fallback else p
  | none => fallback

/-- Side of the virtual gate line for a box centre:
`"left" if center_x < VIRTUAL_GATE_LINE_X else "right"`. -/
def sideForCenter (centerX : ℚ) : String :=
  if centerX < VIRTUAL_GATE_LINE_X then "left" else "right"

/-- Python `payload.get("box") or after.get("box")`: an absent or empty box
list falls through to the `after` box. -/
def firstBox (p : Payload) : Option (List ℚ) :=
  match p.box with
  | some b => if b = [] then p.afterBox else some b
  | none => p.afterBox

/-- Python `infer_direction`.  Returns `((direction, source, side), state)`:
an authoritative payload direction is trusted with source `"frigate"`;
otherwise the box centre is projected against `VIRTUAL_GATE_LINE_X`, the
per-track side streak is updated, and a crossing fires only when the debounced
side flips relative to the stored `last_side`.  (The float conversion errors
of the source cannot arise: box entries are modelled as numbers.) -/
def infer_direction (now : Int) (p : Payload) (key : String) (db : DB) :
    (Option String × String × Option String) × DB :=
  let payloadDir : Option String :=
    match p.direction with
    | some d => if d = "in" ∨ d = "out" then some d else none
    | none => none
  match payloadDir with
  | some d => ((some d, "frigate", none), db)
  | none =>
    let afterDir : Option String :=
      match p.afterDirection with
      | some d => if d = "in" ∨ d = "out" then some d else none
      | none => none
    match afterDir with
    | some d => ((some d, "frigate", none), db)
    | none =>
      match firstBox p with
      | none => ((none, "none", none), db)
      | some b =>
        if b.length < 4 then ((none, "none", none), db)
        else
          let x := b.getD 0 0
          let width := b.getD 2 0
          let centerX := x + width / 2
          let side := sideForCenter centerX
          let lastSide := (db.tracks key).bind (fun t => t.lastSide)
          let prev := db.streaks key
          let streak := if prev.1 = side then prev.2 + 1 else 1
          let db := { db with streaks := fun k =>
            if k = key then (side, streak) else db.streaks k }
          match lastSide with
          | none =>
            let db := if streak ≥ GATE_DEBOUNCE_UPDATES
                      then update_track_side now key (some side) db else db
            ((none, "virtual", some side), db)
          | some ls =>
            if ls = side then ((none, "virtual", some side), db)
            else if streak < GATE_DEBOUNCE_UPDATES then ((none, "virtual", some side), db)
            else
              let db := update_track_side now key (some side) db
              if ls = INSIDE_SIDE ∧ side ≠ INSIDE_SIDE
              then ((some "out", "virtual", some side), db)
              else if ls ≠ INSIDE_SIDE ∧ side = INSIDE_SIDE
              then ((some "in", "virtual", some side), db)
              else ((none, "virtual", some side), db)

/-- Inline plate computation of `handle_counting`:
`normalize_plate(extract_plate(payload)) if ocr_enabled else None`, with an
empty normalization collapsed to `None`. -/
def plate_norm_of (p : Payload) (ocrEnabled : Bool) : Option String :=
  if ocrEnabled then
    let n := normalize_plate (extract_plate p)
    if n = "" then none else some n
  else none

/-- Python `handle_counting`: the full per-event counting pipeline.  The
caller-supplied `ocrEnabled` stands for the `is_ocr_enabled()` read of the
PTZ state.  Structure mirrors the source: label gate, track key, maintenance
(`cleanup_tracks`, `close_expired_sessions`, `enforce_session_limit`),
direction inference, `upsert_track` with the raw observed side, then the
guarded `in` and `out` counting blocks and the final `update_counters`. -/
def handle_counting (now : Int) (p : Payload) (ocrEnabled : Bool) (db : DB) : DB :=
  let label := normalize_object_label p.label
  if label ≠ "person" ∧ label ≠ "car" ∧ label ≠ "truck" then db
  else
    match get_track_key p with
    | none => db
    | some key =>
      let db := cleanup_tracks now db
      let db := close_expired_sessions now db
      let db := { db with exitSessions := enforce_session_limit db.exitSessions }
      let r := infer_direction now p key db
      let direction := r.1.1
      let source := r.1.2.1
      let side := r.1.2.2
      let db := r.2
      let db := upsert_track now key label side db
      match get_track key db with
      | none => db
      | some track =>
        let pc0 := db.peopleCount
        let vc0 := db.vehicleCount
        let s1 : Int × Int × DB :=
          if direction = some "in" ∧ track.countedIn = false then
            let inner : Int × Int × DB :=
              if label = "person" then
                let pc := pc0 + 1
                let db := log_counter_event now label "in" 1 pc key source "person_in" db
                let od := open_person_session now (some key) p.camera source db
                let db := od.2
                let personSessionId := find_recent_person_session "in" now db
                let personIdentity := get_person_identity_for_session personSessionId
                let db := insert_driver_attribution now "in" personIdentity
                  "unknown_vehicle" none personSessionId db
                (pc, vc0, db)
              else
                let vc := vc0 + 1
                let db := log_counter_event now label "in" 1 vc key source "vehicle_in" db
                let plateNorm := plate_norm_of p ocrEnabled
                let ov := open_vehicle_session now (some key) plateNorm label p.camera source db
                let vehicleSessionId := ov.1
                let db := ov.2
                let db :=
                  match vehicleSessionId with
                  | some sid =>
                    if sid ≠ 0 then
                      let db := update_time_outside now plateNorm (some key) label now db
                      let vehicleIdentity := resolve_vehicle_identity plateNorm (some sid)
                      let personSessionId := find_recent_person_session "in" now db
                      let personIdentity := get_person_identity_for_session personSessionId
                      insert_driver_attribution now "in" personIdentity vehicleIdentity
                        (some sid) personSessionId db
                    else db
                  | none => db
                (pc0, vc, db)
            let db := mark_track_counted now key "in" inner.2.2
            (inner.1, inner.2.1, db)
          else (pc0, vc0, db)
        let pc1 := s1.1
        let vc1 := s1.2.1
        let db := s1.2.2
        let s2 : Int × Int × DB :=
          if direction = some "out" ∧ track.countedOut = false then
            let inner : Int × Int × DB :=
              if label = "person" then
                let pc := max 0 (pc1 - 1)
                let al := apply_left_exit_decrement now db.exitSessions
                let appliedLeft := al.1
                let db := { db with exitSessions := al.2 }
                let note := if appliedLeft then "left_side_exit_after_vehicle" else "person_out"
                let db := log_counter_event now label "out" (-1) pc key source note db
                let cp := close_person_session now (some key) db
                let personSessionId := cp.1
                let db := cp.2
                let personIdentity := get_person_identity_for_session personSessionId
                let db := insert_driver_attribution now "out" personIdentity
                  "unknown_vehicle" none personSessionId db
                (pc, vc1, db)
              else
                let vc := max 0 (vc1 - 1)
                let db := log_counter_event now label "out" (-1) vc key source "vehicle_out" db
                let pc := max 0 (pc1 - 1)
                let db := log_counter_event now "person" "out" (-1) pc key source
                  "driver_exit_assumed_right" db
                let db := { db with exitSessions :=
                  create_vehicle_exit_session now p.camera key db.exitSessions }
                let plateNorm := plate_norm_of p ocrEnabled
                let cv := close_vehicle_session now (some key) plateNorm label db
                let vehicleSessionId := cv.1
                let db := cv.2
                let vehicleIdentity := resolve_vehicle_identity plateNorm vehicleSessionId
                let personSessionId := find_recent_person_session "out" now db
                let personIdentity := get_person_identity_for_session personSessionId
                let db := insert_driver_attribution now "out" personIdentity vehicleIdentity
                  vehicleSessionId personSessionId db
                (pc, vc, db)
            let db := mark_track_counted now key "out" inner.2.2
            (inner.1, inner.2.1, db)
          else (pc1, vc1, db)
        update_counters s2.1 s2.2.1 s2.2.2

/-- PTZ view-mode state: the `ptz_state` singleton row.  `last_view_utc` is
the heartbeat timestamp (`None` when cleared). -/
structure PtzState where
  mode : String
  ocrEnabled : Nat
  lastView : Option Int
deriving Repr, DecidableEq

/-- Python `get_ptz_countdown_seconds`: `0` outside panorama; the full
timeout when no heartbeat is stored; otherwise
`max(0, PTZ_AUTO_RETURN_SECONDS - max(0, now - last_view))`. -/
def get_ptz_countdown_seconds (now : Int) (s : PtzState) : Int :=
  if s.mode ≠ "panorama" then 0
  else
    match s.lastView with
    | none => PTZ_AUTO_RETURN_SECONDS
    | some t =>
      let elapsed := max 0 (now - t)
      max 0 (PTZ_AUTO_RETURN_SECONDS - elapsed)

/-- Auto-return trigger condition of `auto_return_loop`: in panorama mode,
with `idle_seconds = PTZ_AUTO_RETURN_SECONDS - countdown` at least the
timeout, the loop attempts the move back to the gate preset. -/
def auto_return_fires (now : Int) (s : PtzState) : Bool :=
  decide (s.mode = "panorama") &&
    decide (PTZ_AUTO_RETURN_SECONDS - get_ptz_countdown_seconds now s ≥
            PTZ_AUTO_RETURN_SECONDS)

/-- Python `update_ptz_last_view`: refresh the heartbeat timestamp, but only
while in panorama mode. -/
def update_ptz_last_view (now : Int) (s : PtzState) : PtzState :=
  if s.mode ≠ "panorama" then s else { s with lastView := some now }

/-- Inputs of one `alert_loop` tick that come from the store and the external
collaborators: counters, gate flag, cooldown row, whether `fetch_snapshot`
returned bytes, and whether the Telegram photo delivery reports success. -/
structure AlertEnv where
  peopleCount : Int
  gateClosed : Int
  lastSent : Option Int
  snapshotOk : Bool
  photoSendOk : Bool
deriving Repr, DecidableEq

/-- Observable outcome of one `alert_loop` tick. -/
structure AlertOutcome where
  photoSent : Bool
  textSent : Bool
  audited : Bool
  cooldownUpdated : Bool
deriving Repr, DecidableEq

/-- Cooldown test of `alert_loop`: no row means send; otherwise send once
`now - last_sent >= ALERT_COOLDOWN_SECONDS`. -/
def alert_should_send (now : Int) (lastSent : Option Int) : Bool :=
  match lastSent with
  | none => true
  | some t => decide (now - t ≥ ALERT_COOLDOWN_SECONDS)

/-- One tick of Python `alert_loop`: when `people_count == 0` and the gate is
open and the cooldown passed, fetch a snapshot and send it as a photo; when
the snapshot is missing or the delivery fails the iteration `continue`s
(nothing further happens); the audit row and the cooldown update run only
after a successful delivery.  The loop never sends a plain text message. -/
def alert_tick (now : Int) (env : AlertEnv) : AlertOutcome :=
  if env.peopleCount = 0 ∧ env.gateClosed = 0 then
    if alert_should_send now env.lastSent then
      if env.snapshotOk then
        if env.photoSendOk then
          { photoSent := true, textSent := false, audited := true, cooldownUpdated := true }
        else
          { photoSent := false, textSent := false, audited := false, cooldownUpdated := false }
      else
        { photoSent := false, textSent := false, audited := false, cooldownUpdated := false }
    else
      { photoSent := false, textSent := false, audited := false, cooldownUpdated := false }
  else
    { photoSent := false, textSent := false, audited := false, cooldownUpdated := false }

/-- Separation property between an earlier and a later `driver_attribution`
row: rows sharing the (person, vehicle, direction) tuple are at least the
dedupe window apart. -/
def attrSep (a b : AttrRow) : Prop :=
  (a.direction = b.direction ∧ a.personIdentity = b.personIdentity ∧
    a.vehicleIdentity = b.vehicleIdentity) →
  b.ts - a.ts ≥ DEDUPE_SECONDS

/-- One insertion request against the `driver_attribution` table. -/
structure AttrReq where
  now : Int
  direction : String
  personIdentity : String
  vehicleIdentity : String
  vehicleSessionId : Option Nat
  personSessionId : Option Nat

end EventBridge

namespace Tripwire

/-- Per-object state of `TripwireTracker` (`core/tripwire.py`): the deque of
side booleans (`true` = below the line), the last confirmed side, the last
fire time (`_last_fire.get(obj_id, 0.0)` defaults to `0`), and the last seen
time.  Clock values are modelled as integers. -/
structure ObjState where
  buf : List Bool
  confirmedSide : Option Bool
  lastFire : Int
  lastSeen : Int
deriving Repr, DecidableEq

/-- Fresh per-object state installed on the first event for an object id. -/
def initObj : ObjState := ⟨[], none, 0, 0⟩

/-- Tracker parameters: `buffer_frames` (clamped to at least 1 in `__init__`)
and `cooldown_secs`. -/
structure Params where
  bufferFrames : Nat
  cooldown : Int
deriving Repr, DecidableEq

/-- Effective buffer length `max(1, buffer_frames)`. -/
def Params.bufLen (p : Params) : Nat := max 1 p.bufferFrames

/-- Append to a `deque(maxlen = m)`: drop from the left beyond capacity. -/
def pushBuf (m : Nat) (b : Bool) (buf : List Bool) : List Bool :=
  let buf2 := buf ++ [b]
  if m < buf2.length then buf2.drop (buf2.length - m) else buf2

/-- Python `TripwireTracker.update` for one object: push the observed side,
wait until the buffer is full and consistent, establish a baseline on the
first confirmation, ignore an unchanged side, and on a confirmed flip store
the new side first and only then apply the cooldown gate before firing. -/
def update (p : Params) (now lineY centerY : Int) (s : ObjState) :
    Option String × ObjState :=
  let below := decide (centerY ≥ lineY)
  let buf := pushBuf p.bufLen below s.buf
  let s := { s with buf := buf, lastSeen := now }
  if buf.length < p.bufLen then (none, s)
  else
    let allBelow := buf.all (fun b => b)
    let allAbove := buf.all (fun b => !b)
    if ¬(allBelow = true ∨ allAbove = true) then (none, s)
    else
      let newSide := allBelow
      match s.confirmedSide with
      | none => (none, { s with confirmedSide := some newSide })
      | some prevSide =>
        if newSide = prevSide then (none, s)
        else
          let s := { s with confirmedSide := some newSide }
          if now - s.lastFire < p.cooldown then (none, s)
          else (some (if newSide then "IN" else "OUT"), { s with lastFire := now })

end Tripwire

namespace EventBridge

/-- Claim C8: the auto-return transition fires only in panorama (wide-view)
mode with at least `PTZ_AUTO_RETURN_SECONDS` elapsed since the stored
heartbeat, and a heartbeat taken in panorama mode restores the countdown to
the full timeout. -/
theorem C8_auto_return_timeout_and_heartbeat_reset :
    (∀ (now : Int) (s : PtzState), auto_return_fires now s = true →
      s.mode = "panorama" ∧
        ∃ t, s.lastView = some t ∧ now - t ≥ PTZ_AUTO_RETURN_SECONDS) ∧
    (∀ (now : Int) (s : PtzState), s.mode = "panorama" →
      get_ptz_countdown_seconds now (update_ptz_last_view now s) =
        PTZ_AUTO_RETURN_SECONDS) := by
  constructor
  · intro now s h
    unfold auto_return_fires at h
    simp only [Bool.and_eq_true, decide_eq_true_eq] at h
    obtain ⟨hmode, hidle⟩ := h
    refine ⟨hmode, ?_⟩
    unfold get_ptz_countdown_seconds at hidle
    rw [if_neg (by simp [hmode])] at hidle
    cases hlv : s.lastView with
    | none =>
      rw [hlv] at hidle
      simp only [PTZ_AUTO_RETURN_SECONDS] at hidle
      omega
    | some t =>
      rw [hlv] at hidle
      refine ⟨t, rfl, ?_⟩
      simp only [PTZ_AUTO_RETURN_SECONDS] at hidle ⊢
      omega
  · intro now s hmode
    unfold update_ptz_last_view
    rw [if_neg (by simp [hmode])]
    unfold get_ptz_countdown_seconds
    rw [if_neg (by simp [hmode])]
    simp
    unfold PTZ_AUTO_RETURN_SECONDS
    omega

/-- Witness for C8 at a concrete state: a fire 300 seconds after the
heartbeat implies the elapsed-time bound, and a fresh heartbeat restores the
full 300-second countdown. -/
theorem C8_witness :
    (auto_return_fires 400 ⟨"panorama", 0, some 100⟩ = true ∧
      ("panorama" : String) = "panorama") ∧
    (∃ t, (⟨"panorama", 0, some 100⟩ : PtzState).lastView = some t ∧
      (400 : Int) - t ≥ PTZ_AUTO_RETURN_SECONDS) ∧
    get_ptz_countdown_seconds 500 (update_ptz_last_view 500 ⟨"panorama", 0, some 100⟩) =
      PTZ_AUTO_RETURN_SECONDS := by
  refine ⟨⟨by decide, rfl⟩, ?_, ?_⟩
  · exact (C8_auto_return_timeout_and_heartbeat_reset.1 400 ⟨"panorama", 0, some 100⟩
      (by decide)).2
  · exact C8_auto_return_timeout_and_heartbeat_reset.2 500 ⟨"panorama", 0, some 100⟩ rfl

/-- Claim C9 counterexample: on a tick where the condition holds (no people,
gate open), the cooldown never fired and the snapshot is unavailable, the
code sends nothing at all — no text-only fallback notification — and skips
the audit row and the cooldown update. -/
theorem C9_counterexample_no_text_fallback :
    alert_tick 0 ⟨0, 0, none, false, true⟩ =
      { photoSent := false, textSent := false, audited := false, cooldownUpdated := false } ∧
    alert_tick 0 ⟨0, 0, none, true, false⟩ =
      { photoSent := false, textSent := false, audited := false, cooldownUpdated := false } := by
  constructor <;> decide

/-- Claim C9 (amended): the alert tick never sends a text-only fallback; a
photo notification goes out exactly when the condition, the cooldown, the
snapshot and the delivery all succeed; the audit row and the cooldown update
happen exactly when the photo notification was delivered. -/
theorem C9_alert_tick_gating :
    ∀ (now : Int) (env : AlertEnv),
      (alert_tick now env).textSent = false ∧
      ((alert_tick now env).photoSent = true ↔
        (env.peopleCount = 0 ∧ env.gateClosed = 0 ∧
          alert_should_send now env.lastSent = true ∧
          env.snapshotOk = true ∧ env.photoSendOk = true)) ∧
      (alert_tick now env).audited = (alert_tick now env).photoSent ∧
      (alert_tick now env).cooldownUpdated = (alert_tick now env).photoSent := by
  intro now env
  unfold alert_tick
  repeat' split <;> simp_all

/-- `insert_driver_attribution` preserves the pairwise dedupe separation of
the attribution table. -/
lemma insert_attr_pairwise (now : Int) (dir pid vid : String)
    (vsid psid : Option Nat) (db : DB)
    (h : db.attributions.Pairwise attrSep) :
    (insert_driver_attribution now dir pid vid vsid psid db).attributions.Pairwise attrSep := by
  unfold insert_driver_attribution
  split
  · exact h
  · rename_i hany
    simp only [List.any_eq_true, decide_eq_true_eq, not_exists, not_and] at hany
    simp only [List.pairwise_append, List.pairwise_cons, List.Pairwise.nil]
    refine ⟨h, by simp, ?_⟩
    intro a ha b hb
    simp only [List.mem_singleton] at hb
    subst hb
    intro hsame
    obtain ⟨hdir, hpid, hvid⟩ := hsame
    simp only at hdir hpid hvid
    have hts := hany a ha hpid hvid hdir
    simp only [ge_iff_le, not_le] at hts
    simp only [ge_iff_le]
    omega

/-- Folding any request sequence through `insert_driver_attribution`
preserves the pairwise separation. -/
lemma foldl_attr_pairwise (reqs : List AttrReq) (db : DB)
    (h : db.attributions.Pairwise attrSep) :
    ((reqs.foldl (fun acc q =>
        insert_driver_attribution q.now q.direction q.personIdentity
          q.vehicleIdentity q.vehicleSessionId q.personSessionId acc) db).attributions.Pairwise
      attrSep) := by
  induction reqs generalizing db with
  | nil => exact h
  | cons q rest ih =>
    exact ih _ (insert_attr_pairwise q.now q.direction q.personIdentity
      q.vehicleIdentity q.vehicleSessionId q.personSessionId db h)

/-- Claim C7: starting from an empty store, after any sequence of
`insert_driver_attribution` calls, any two rows of `driver_attribution` that
share the (person, vehicle, direction) tuple were inserted at least
`DEDUPE_SECONDS` apart — an insertion is skipped whenever the identical
tuple exists inside the window. -/
theorem C7_attribution_dedupe_window :
    ∀ (reqs : List AttrReq),
      ((reqs.foldl (fun acc q =>
          insert_driver_attribution q.now q.direction q.personIdentity
            q.vehicleIdentity q.vehicleSessionId q.personSessionId acc)
        initDB).attributions.Pairwise attrSep) := by
  intro reqs
  exact foldl_attr_pairwise reqs initDB (by simp [initDB])

/-! Frame lemmas: each store operation leaves every component it does not
write untouched.  These drive the symbolic evaluation of `handle_counting`. -/

@[simp] lemma cleanup_tracks_peopleCount (now : Int) (db : DB) :
    (cleanup_tracks now db).peopleCount = db.peopleCount := rfl

@[simp] lemma cleanup_tracks_vehicleCount (now : Int) (db : DB) :
    (cleanup_tracks now db).vehicleCount = db.vehicleCount := rfl

@[simp] lemma cleanup_tracks_streaks (now : Int) (db : DB) :
    (cleanup_tracks now db).streaks = db.streaks := rfl

@[simp] lemma cleanup_tracks_exitSessions (now : Int) (db : DB) :
    (cleanup_tracks now db).exitSessions = db.exitSessions := rfl

@[simp] lemma cleanup_tracks_counterEvents (now : Int) (db : DB) :
    (cleanup_tracks now db).counterEvents = db.counterEvents := rfl

@[simp] lemma cleanup_tracks_personSessions (now : Int) (db : DB) :
    (cleanup_tracks now db).personSessions = db.personSessions := rfl

@[simp] lemma cleanup_tracks_vehicleSessions (now : Int) (db : DB) :
    (cleanup_tracks now db).vehicleSessions = db.vehicleSessions := rfl

@[simp] lemma cleanup_tracks_attributions (now : Int) (db : DB) :
    (cleanup_tracks now db).attributions = db.attributions := rfl

@[simp] lemma close_expired_sessions_peopleCount (now : Int) (db : DB) :
    (close_expired_sessions now db).peopleCount = db.peopleCount := rfl

@[simp] lemma close_expired_sessions_vehicleCount (now : Int) (db : DB) :
    (close_expired_sessions now db).vehicleCount = db.vehicleCount := rfl

@[simp] lemma close_expired_sessions_tracks (now : Int) (db : DB) :
    (close_expired_sessions now db).tracks = db.tracks := rfl

@[simp] lemma close_expired_sessions_streaks (now : Int) (db : DB) :
    (close_expired_sessions now db).streaks = db.streaks := rfl

@[simp] lemma close_expired_sessions_counterEvents (now : Int) (db : DB) :
    (close_expired_sessions now db).counterEvents = db.counterEvents := rfl

@[simp] lemma close_expired_sessions_personSessions (now : Int) (db : DB) :
    (close_expired_sessions now db).personSessions = db.personSessions := rfl

@[simp] lemma close_expired_sessions_vehicleSessions (now : Int) (db : DB) :
    (close_expired_sessions now db).vehicleSessions = db.vehicleSessions := rfl

@[simp] lemma close_expired_sessions_attributions (now : Int) (db : DB) :
    (close_expired_sessions now db).attributions = db.attributions := rfl

@[simp] lemma upsert_track_peopleCount (now : Int) (key lbl : String) (side : Option String) (db : DB) :
    (upsert_track now key lbl side db).peopleCount = db.peopleCount := by
  unfold upsert_track; cases db.tracks key <;> rfl

@[simp] lemma upsert_track_vehicleCount (now : Int) (key lbl : String) (side : Option String) (db : DB) :
    (upsert_track now key lbl side db).vehicleCount = db.vehicleCount := by
  unfold upsert_track; cases db.tracks key <;> rfl

@[simp] lemma upsert_track_streaks (now : Int) (key lbl : String) (side : Option String) (db : DB) :
    (upsert_track now key lbl side db).streaks = db.streaks := by
  unfold upsert_track; cases db.tracks key <;> rfl

@[simp] lemma upsert_track_exitSessions (now : Int) (key lbl : String) (side : Option String) (db : DB) :
    (upsert_track now key lbl side db).exitSessions = db.exitSessions := by
  unfold upsert_track; cases db.tracks key <;> rfl

@[simp] lemma upsert_track_counterEvents (now : Int) (key lbl : String) (side : Option String) (db : DB) :
    (upsert_track now key lbl side db).counterEvents = db.counterEvents := by
  unfold upsert_track; cases db.tracks key <;> rfl

@[simp] lemma upsert_track_personSessions (now : Int) (key lbl : String) (side : Option String) (db : DB) :
    (upsert_track now key lbl side db).personSessions = db.personSessions := by
  unfold upsert_track; cases db.tracks key <;> rfl

@[simp] lemma upsert_track_vehicleSessions (now : Int) (key lbl : String) (side : Option String) (db : DB) :
    (upsert_track now key lbl side db).vehicleSessions = db.vehicleSessions := by
  unfold upsert_track; cases db.tracks key <;> rfl

@[simp] lemma upsert_track_attributions (now : Int) (key lbl : String) (side : Option String) (db : DB) :
    (upsert_track now key lbl side db).attributions = db.attributions := by
  unfold upsert_track; cases db.tracks key <;> rfl

@[simp] lemma update_track_side_peopleCount (now : Int) (key : String) (side : Option String) (db : DB) :
    (update_track_side now key side db).peopleCount = db.peopleCount := by
  unfold update_track_side; cases db.tracks key <;> rfl

@[simp] lemma update_track_side_vehicleCount (now : Int) (key : String) (side : Option String) (db : DB) :
    (update_track_side now key side db).vehicleCount = db.vehicleCount := by
  unfold update_track_side; cases db.tracks key <;> rfl

@[simp] lemma update_track_side_streaks (now : Int) (key : String) (side : Option String) (db : DB) :
    (update_track_side now key side db).streaks = db.streaks := by
  unfold update_track_side; cases db.tracks key <;> rfl

@[simp] lemma update_track_side_exitSessions (now : Int) (key : String) (side : Option String) (db : DB) :
    (update_track_side now key side db).exitSessions = db.exitSessions := by
  unfold update_track_side; cases db.tracks key <;> rfl

@[simp] lemma update_track_side_counterEvents (now : Int) (key : String) (side : Option String) (db : DB) :
    (update_track_side now key side db).counterEvents = db.counterEvents := by
  unfold update_track_side; cases db.tracks key <;> rfl

@[simp] lemma update_track_side_personSessions (now : Int) (key : String) (side : Option String) (db : DB) :
    (update_track_side now key side db).personSessions = db.personSessions := by
  unfold update_track_side; cases db.tracks key <;> rfl

@[simp] lemma update_track_side_vehicleSessions (now : Int) (key : String) (side : Option String) (db : DB) :
    (update_track_side now key side db).vehicleSessions = db.vehicleSessions := by
  unfold update_track_side; cases db.tracks key <;> rfl

@[simp] lemma update_track_side_attributions (now : Int) (key : String) (side : Option String) (db : DB) :
    (update_track_side now key side db).attributions = db.attributions := by
  unfold update_track_side; cases db.tracks key <;> rfl

@[simp] lemma mark_track_counted_peopleCount (now : Int) (key dir : String) (db : DB) :
    (mark_track_counted now key dir db).peopleCount = db.peopleCount := by
  simp only [mark_track_counted]; split <;> first | rfl | (cases db.tracks key <;> rfl)

@[simp] lemma mark_track_counted_vehicleCount (now : Int) (key dir : String) (db : DB) :
    (mark_track_counted now key dir db).vehicleCount = db.vehicleCount := by
  simp only [mark_track_counted]; split <;> first | rfl | (cases db.tracks key <;> rfl)

@[simp] lemma mark_track_counted_streaks (now : Int) (key dir : String) (db : DB) :
    (mark_track_counted now key dir db).streaks = db.streaks := by
  simp only [mark_track_counted]; split <;> first | rfl | (cases db.tracks key <;> rfl)

@[simp] lemma mark_track_counted_exitSessions (now : Int) (key dir : String) (db : DB) :
    (mark_track_counted now key dir db).exitSessions = db.exitSessions := by
  simp only [mark_track_counted]; split <;> first | rfl | (cases db.tracks key <;> rfl)

@[simp] lemma mark_track_counted_counterEvents (now : Int) (key dir : String) (db : DB) :
    (mark_track_counted now key dir db).counterEvents = db.counterEvents := by
  simp only [mark_track_counted]; split <;> first | rfl | (cases db.tracks key <;> rfl)

@[simp] lemma mark_track_counted_personSessions (now : Int) (key dir : String) (db : DB) :
    (mark_track_counted now key dir db).personSessions = db.personSessions := by
  simp only [mark_track_counted]; split <;> first | rfl | (cases db.tracks key <;> rfl)

@[simp] lemma mark_track_counted_vehicleSessions (now : Int) (key dir : String) (db : DB) :
    (mark_track_counted now key dir db).vehicleSessions = db.vehicleSessions := by
  simp only [mark_track_counted]; split <;> first | rfl | (cases db.tracks key <;> rfl)

@[simp] lemma mark_track_counted_attributions (now : Int) (key dir : String) (db : DB) :
    (mark_track_counted now key dir db).attributions = db.attributions := by
  simp only [mark_track_counted]; split <;> first | rfl | (cases db.tracks key <;> rfl)

@[simp] lemma log_counter_event_peopleCount (now : Int) (lbl dir : String) (delta newCount : Int) (key source note : String) (db : DB) :
    (log_counter_event now lbl dir delta newCount key source note db).peopleCount = db.peopleCount := rfl

@[simp] lemma log_counter_event_vehicleCount (now : Int) (lbl dir : String) (delta newCount : Int) (key source note : String) (db : DB) :
    (log_counter_event now lbl dir delta newCount key source note db).vehicleCount = db.vehicleCount := rfl

@[simp] lemma log_counter_event_tracks (now : Int) (lbl dir : String) (delta newCount : Int) (key source note : String) (db : DB) :
    (log_counter_event now lbl dir delta newCount key source note db).tracks = db.tracks := rfl

@[simp] lemma log_counter_event_streaks (now : Int) (lbl dir : String) (delta newCount : Int) (key source note : String) (db : DB) :
    (log_counter_event now lbl dir delta newCount key source note db).streaks = db.streaks := rfl

@[simp] lemma log_counter_event_exitSessions (now : Int) (lbl dir : String) (delta newCount : Int) (key source note : String) (db : DB) :
    (log_counter_event now lbl dir delta newCount key source note db).exitSessions = db.exitSessions := rfl

@[simp] lemma log_counter_event_personSessions (now : Int) (lbl dir : String) (delta newCount : Int) (key source note : String) (db : DB) :
    (log_counter_event now lbl dir delta newCount key source note db).personSessions = db.personSessions := rfl

@[simp] lemma log_counter_event_vehicleSessions (now : Int) (lbl dir : String) (delta newCount : Int) (key source note : String) (db : DB) :
    (log_counter_event now lbl dir delta newCount key source note db).vehicleSessions = db.vehicleSessions := rfl

@[simp] lemma log_counter_event_attributions (now : Int) (lbl dir : String) (delta newCount : Int) (key source note : String) (db : DB) :
    (log_counter_event now lbl dir delta newCount key source note db).attributions = db.attributions := rfl

@[simp] lemma update_counters_tracks (pc vc : Int) (db : DB) :
    (update_counters pc vc db).tracks = db.tracks := rfl

@[simp] lemma update_counters_streaks (pc vc : Int) (db : DB) :
    (update_counters pc vc db).streaks = db.streaks := rfl

@[simp] lemma update_counters_exitSessions (pc vc : Int) (db : DB) :
    (update_counters pc vc db).exitSessions = db.exitSessions := rfl

@[simp] lemma update_counters_counterEvents (pc vc : Int) (db : DB) :
    (update_counters pc vc db).counterEvents = db.counterEvents := rfl

@[simp] lemma update_counters_personSessions (pc vc : Int) (db : DB) :
    (update_counters pc vc db).personSessions = db.personSessions := rfl

@[simp] lemma update_counters_vehicleSessions (pc vc : Int) (db : DB) :
    (update_counters pc vc db).vehicleSessions = db.vehicleSessions := rfl

@[simp] lemma update_counters_attributions (pc vc : Int) (db : DB) :
    (update_counters pc vc db).attributions = db.attributions := rfl

@[simp] lemma open_person_session_peopleCount (now : Int) (personKey camera : Option String) (source : String) (db : DB) :
    ((open_person_session now personKey camera source db).2).peopleCount = db.peopleCount := rfl

@[simp] lemma open_person_session_vehicleCount (now : Int) (personKey camera : Option String) (source : String) (db : DB) :
    ((open_person_session now personKey camera source db).2).vehicleCount = db.vehicleCount := rfl

@[simp] lemma open_person_session_tracks (now : Int) (personKey camera : Option String) (source : String) (db : DB) :
    ((open_person_session now personKey camera source db).2).tracks = db.tracks := rfl

@[simp] lemma open_person_session_streaks (now : Int) (personKey camera : Option String) (source : String) (db : DB) :
    ((open_person_session now personKey camera source db).2).streaks = db.streaks := rfl

@[simp] lemma open_person_session_exitSessions (now : Int) (personKey camera : Option String) (source : String) (db : DB) :
    ((open_person_session now personKey camera source db).2).exitSessions = db.exitSessions := rfl

@[simp] lemma open_person_session_counterEvents (now : Int) (personKey camera : Option String) (source : String) (db : DB) :
    ((open_person_session now personKey camera source db).2).counterEvents = db.counterEvents := rfl

@[simp] lemma open_person_session_vehicleSessions (now : Int) (personKey camera : Option String) (source : String) (db : DB) :
    ((open_person_session now personKey camera source db).2).vehicleSessions = db.vehicleSessions := rfl

@[simp] lemma open_person_session_attributions (now : Int) (personKey camera : Option String) (source : String) (db : DB) :
    ((open_person_session now personKey camera source db).2).attributions = db.attributions := rfl

@[simp] lemma close_person_session_peopleCount (now : Int) (personKey : Option String) (db : DB) :
    ((close_person_session now personKey db).2).peopleCount = db.peopleCount := by
  simp only [close_person_session]; (repeat' split) <;> rfl

@[simp] lemma close_person_session_vehicleCount (now : Int) (personKey : Option String) (db : DB) :
    ((close_person_session now personKey db).2).vehicleCount = db.vehicleCount := by
  simp only [close_person_session]; (repeat' split) <;> rfl

@[simp] lemma close_person_session_tracks (now : Int) (personKey : Option String) (db : DB) :
    ((close_person_session now personKey db).2).tracks = db.tracks := by
  simp only [close_person_session]; (repeat' split) <;> rfl

@[simp] lemma close_person_session_streaks (now : Int) (personKey : Option String) (db : DB) :
    ((close_person_session now personKey db).2).streaks = db.streaks := by
  simp only [close_person_session]; (repeat' split) <;> rfl

@[simp] lemma close_person_session_exitSessions (now : Int) (personKey : Option String) (db : DB) :
    ((close_person_session now personKey db).2).exitSessions = db.exitSessions := by
  simp only [close_person_session]; (repeat' split) <;> rfl

@[simp] lemma close_person_session_counterEvents (now : Int) (personKey : Option String) (db : DB) :
    ((close_person_session now personKey db).2).counterEvents = db.counterEvents := by
  simp only [close_person_session]; (repeat' split) <;> rfl

@[simp] lemma close_person_session_vehicleSessions (now : Int) (personKey : Option String) (db : DB) :
    ((close_person_session now personKey db).2).vehicleSessions = db.vehicleSessions := by
  simp only [close_person_session]; (repeat' split) <;> rfl

@[simp] lemma close_person_session_attributions (now : Int) (personKey : Option String) (db : DB) :
    ((close_person_session now personKey db).2).attributions = db.attributions := by
  simp only [close_person_session]; (repeat' split) <;> rfl

@[simp] lemma open_vehicle_session_peopleCount (now : Int) (vehicleKey plateNorm : Option String) (vtype : String) (camera : Option String) (source : String) (db : DB) :
    ((open_vehicle_session now vehicleKey plateNorm vtype camera source db).2).peopleCount = db.peopleCount := rfl

@[simp] lemma open_vehicle_session_vehicleCount (now : Int) (vehicleKey plateNorm : Option String) (vtype : String) (camera : Option String) (source : String) (db : DB) :
    ((open_vehicle_session now vehicleKey plateNorm vtype camera source db).2).vehicleCount = db.vehicleCount := rfl

@[simp] lemma open_vehicle_session_tracks (now : Int) (vehicleKey plateNorm : Option String) (vtype : String) (camera : Option String) (source : String) (db : DB) :
    ((open_vehicle_session now vehicleKey plateNorm vtype camera source db).2).tracks = db.tracks := rfl

@[simp] lemma open_vehicle_session_streaks (now : Int) (vehicleKey plateNorm : Option String) (vtype : String) (camera : Option String) (source : String) (db : DB) :
    ((open_vehicle_session now vehicleKey plateNorm vtype camera source db).2).streaks = db.streaks := rfl

@[simp] lemma open_vehicle_session_exitSessions (now : Int) (vehicleKey plateNorm : Option String) (vtype : String) (camera : Option String) (source : String) (db : DB) :
    ((open_vehicle_session now vehicleKey plateNorm vtype camera source db).2).exitSessions = db.exitSessions := rfl

@[simp] lemma open_vehicle_session_counterEvents (now : Int) (vehicleKey plateNorm : Option String) (vtype : String) (camera : Option String) (source : String) (db : DB) :
    ((open_vehicle_session now vehicleKey plateNorm vtype camera source db).2).counterEvents = db.counterEvents := rfl

@[simp] lemma open_vehicle_session_personSessions (now : Int) (vehicleKey plateNorm : Option String) (vtype : String) (camera : Option String) (source : String) (db : DB) :
    ((open_vehicle_session now vehicleKey plateNorm vtype camera source db).2).personSessions = db.personSessions := rfl

@[simp] lemma open_vehicle_session_attributions (now : Int) (vehicleKey plateNorm : Option String) (vtype : String) (camera : Option String) (source : String) (db : DB) :
    ((open_vehicle_session now vehicleKey plateNorm vtype camera source db).2).attributions = db.attributions := rfl

@[simp] lemma close_vehicle_session_peopleCount (now : Int) (vehicleKey plateNorm : Option String) (vtype : String) (db : DB) :
    ((close_vehicle_session now vehicleKey plateNorm vtype db).2).peopleCount = db.peopleCount := by
  simp only [close_vehicle_session]; (repeat' split) <;> rfl

@[simp] lemma close_vehicle_session_vehicleCount (now : Int) (vehicleKey plateNorm : Option String) (vtype : String) (db : DB) :
    ((close_vehicle_session now vehicleKey plateNorm vtype db).2).vehicleCount = db.vehicleCount := by
  simp only [close_vehicle_session]; (repeat' split) <;> rfl

@[simp] lemma close_vehicle_session_tracks (now : Int) (vehicleKey plateNorm : Option String) (vtype : String) (db : DB) :
    ((close_vehicle_session now vehicleKey plateNorm vtype db).2).tracks = db.tracks := by
  simp only [close_vehicle_session]; (repeat' split) <;> rfl

@[simp] lemma close_vehicle_session_streaks (now : Int) (vehicleKey plateNorm : Option String) (vtype : String) (db : DB) :
    ((close_vehicle_session now vehicleKey plateNorm vtype db).2).streaks = db.streaks := by
  simp only [close_vehicle_session]; (repeat' split) <;> rfl

@[simp] lemma close_vehicle_session_exitSessions (now : Int) (vehicleKey plateNorm : Option String) (vtype : String) (db : DB) :
    ((close_vehicle_session now vehicleKey plateNorm vtype db).2).exitSessions = db.exitSessions := by
  simp only [close_vehicle_session]; (repeat' split) <;> rfl

@[simp] lemma close_vehicle_session_counterEvents (now : Int) (vehicleKey plateNorm : Option String) (vtype : String) (db : DB) :
    ((close_vehicle_session now vehicleKey plateNorm vtype db).2).counterEvents = db.counterEvents := by
  simp only [close_vehicle_session]; (repeat' split) <;> rfl

@[simp] lemma close_vehicle_session_personSessions (now : Int) (vehicleKey plateNorm : Option String) (vtype : String) (db : DB) :
    ((close_vehicle_session now vehicleKey plateNorm vtype db).2).personSessions = db.personSessions := by
  simp only [close_vehicle_session]; (repeat' split) <;> rfl

@[simp] lemma close_vehicle_session_attributions (now : Int) (vehicleKey plateNorm : Option String) (vtype : String) (db : DB) :
    ((close_vehicle_session now vehicleKey plateNorm vtype db).2).attributions = db.attributions := by
  simp only [close_vehicle_session]; (repeat' split) <;> rfl

@[simp] lemma update_time_outside_peopleCount (now : Int) (plateNorm vehicleKey : Option String) (vtype : String) (enteredAt : Int) (db : DB) :
    (update_time_outside now plateNorm vehicleKey vtype enteredAt db).peopleCount = db.peopleCount := by
  simp only [update_time_outside]; (repeat' split) <;> rfl

@[simp] lemma update_time_outside_vehicleCount (now : Int) (plateNorm vehicleKey : Option String) (vtype : String) (enteredAt : Int) (db : DB) :
    (update_time_outside now plateNorm vehicleKey vtype enteredAt db).vehicleCount = db.vehicleCount := by
  simp only [update_time_outside]; (repeat' split) <;> rfl

@[simp] lemma update_time_outside_tracks (now : Int) (plateNorm vehicleKey : Option String) (vtype : String) (enteredAt : Int) (db : DB) :
    (update_time_outside now plateNorm vehicleKey vtype enteredAt db).tracks = db.tracks := by
  simp only [update_time_outside]; (repeat' split) <;> rfl

@[simp] lemma update_time_outside_streaks (now : Int) (plateNorm vehicleKey : Option String) (vtype : String) (enteredAt : Int) (db : DB) :
    (update_time_outside now plateNorm vehicleKey vtype enteredAt db).streaks = db.streaks := by
  simp only [update_time_outside]; (repeat' split) <;> rfl

@[simp] lemma update_time_outside_exitSessions (now : Int) (plateNorm vehicleKey : Option String) (vtype : String) (enteredAt : Int) (db : DB) :
    (update_time_outside now plateNorm vehicleKey vtype enteredAt db).exitSessions = db.exitSessions := by
  simp only [update_time_outside]; (repeat' split) <;> rfl

@[simp] lemma update_time_outside_counterEvents (now : Int) (plateNorm vehicleKey : Option String) (vtype : String) (enteredAt : Int) (db : DB) :
    (update_time_outside now plateNorm vehicleKey vtype enteredAt db).counterEvents = db.counterEvents := by
  simp only [update_time_outside]; (repeat' split) <;> rfl

@[simp] lemma update_time_outside_personSessions (now : Int) (plateNorm vehicleKey : Option String) (vtype : String) (enteredAt : Int) (db : DB) :
    (update_time_outside now plateNorm vehicleKey vtype enteredAt db).personSessions = db.personSessions := by
  simp only [update_time_outside]; (repeat' split) <;> rfl

@[simp] lemma update_time_outside_attributions (now : Int) (plateNorm vehicleKey : Option String) (vtype : String) (enteredAt : Int) (db : DB) :
    (update_time_outside now plateNorm vehicleKey vtype enteredAt db).attributions = db.attributions := by
  simp only [update_time_outside]; (repeat' split) <;> rfl

@[simp] lemma insert_driver_attribution_peopleCount (now : Int) (dir pid vid : String) (vsid psid : Option Nat) (db : DB) :
    (insert_driver_attribution now dir pid vid vsid psid db).peopleCount = db.peopleCount := by
  simp only [insert_driver_attribution]; (repeat' split) <;> rfl

@[simp] lemma insert_driver_attribution_vehicleCount (now : Int) (dir pid vid : String) (vsid psid : Option Nat) (db : DB) :
    (insert_driver_attribution now dir pid vid vsid psid db).vehicleCount = db.vehicleCount := by
  simp only [insert_driver_attribution]; (repeat' split) <;> rfl

@[simp] lemma insert_driver_attribution_tracks (now : Int) (dir pid vid : String) (vsid psid : Option Nat) (db : DB) :
    (insert_driver_attribution now dir pid vid vsid psid db).tracks = db.tracks := by
  simp only [insert_driver_attribution]; (repeat' split) <;> rfl

@[simp] lemma insert_driver_attribution_streaks (now : Int) (dir pid vid : String) (vsid psid : Option Nat) (db : DB) :
    (insert_driver_attribution now dir pid vid vsid psid db).streaks = db.streaks := by
  simp only [insert_driver_attribution]; (repeat' split) <;> rfl

@[simp] lemma insert_driver_attribution_exitSessions (now : Int) (dir pid vid : String) (vsid psid : Option Nat) (db : DB) :
    (insert_driver_attribution now dir pid vid vsid psid db).exitSessions = db.exitSessions := by
  simp only [insert_driver_attribution]; (repeat' split) <;> rfl

@[simp] lemma insert_driver_attribution_counterEvents (now : Int) (dir pid vid : String) (vsid psid : Option Nat) (db : DB) :
    (insert_driver_attribution now dir pid vid vsid psid db).counterEvents = db.counterEvents := by
  simp only [insert_driver_attribution]; (repeat' split) <;> rfl

@[simp] lemma insert_driver_attribution_personSessions (now : Int) (dir pid vid : String) (vsid psid : Option Nat) (db : DB) :
    (insert_driver_attribution now dir pid vid vsid psid db).personSessions = db.personSessions := by
  simp only [insert_driver_attribution]; (repeat' split) <;> rfl

@[simp] lemma insert_driver_attribution_vehicleSessions (now : Int) (dir pid vid : String) (vsid psid : Option Nat) (db : DB) :
    (insert_driver_attribution now dir pid vid vsid psid db).vehicleSessions = db.vehicleSessions := by
  simp only [insert_driver_attribution]; (repeat' split) <;> rfl

/-! Frame lemmas for `infer_direction`: the returned state differs from the
input state only in `tracks` and `streaks`. -/

@[simp] lemma infer_direction_peopleCount (now : Int) (p : Payload) (key : String) (db : DB) :
    ((infer_direction now p key db).2).peopleCount = db.peopleCount := by
  simp only [infer_direction]; (repeat' split) <;> simp

@[simp] lemma infer_direction_vehicleCount (now : Int) (p : Payload) (key : String) (db : DB) :
    ((infer_direction now p key db).2).vehicleCount = db.vehicleCount := by
  simp only [infer_direction]; (repeat' split) <;> simp

@[simp] lemma infer_direction_exitSessions (now : Int) (p : Payload) (key : String) (db : DB) :
    ((infer_direction now p key db).2).exitSessions = db.exitSessions := by
  simp only [infer_direction]; (repeat' split) <;> simp

@[simp] lemma infer_direction_counterEvents (now : Int) (p : Payload) (key : String) (db : DB) :
    ((infer_direction now p key db).2).counterEvents = db.counterEvents := by
  simp only [infer_direction]; (repeat' split) <;> simp

@[simp] lemma infer_direction_personSessions (now : Int) (p : Payload) (key : String) (db : DB) :
    ((infer_direction now p key db).2).personSessions = db.personSessions := by
  simp only [infer_direction]; (repeat' split) <;> simp

@[simp] lemma infer_direction_vehicleSessions (now : Int) (p : Payload) (key : String) (db : DB) :
    ((infer_direction now p key db).2).vehicleSessions = db.vehicleSessions := by
  simp only [infer_direction]; (repeat' split) <;> simp

@[simp] lemma infer_direction_attributions (now : Int) (p : Payload) (key : String) (db : DB) :
    ((infer_direction now p key db).2).attributions = db.attributions := by
  simp only [infer_direction]; (repeat' split) <;> simp

/-! Lemmas about the query helpers and the active-session count. -/

lemma latestBy_mem {α : Type} (f : α → Int) (l : List α) (x : α)
    (h : latestBy f l = some x) : x ∈ l := by
  induction l with
  | nil => simp [latestBy] at h
  | cons a rest ih =>
    rcases hrest : latestBy f rest with _ | y <;>
      simp only [latestBy, hrest] at h
    · simp at h; subst h; exact List.mem_cons_self a rest
    · split at h
      · simp at h; subst h; exact List.mem_cons_of_mem a (ih hrest)
      · simp at h; subst h; exact List.mem_cons_self a rest

lemma latestBy_isSome {α : Type} (f : α → Int) (l : List α) (h : l ≠ []) :
    ∃ x, latestBy f l = some x := by
  cases l with
  | nil => simp at h
  | cons a rest =>
    rcases hrest : latestBy f rest with _ | y <;>
      simp only [latestBy, hrest]
    · exact ⟨a, rfl⟩
    · split <;> exact ⟨_, rfl⟩

lemma mostRecentActive_spec (ss : List ExitSession) (s : ExitSession)
    (h : mostRecentActive ss = some s) : s ∈ ss ∧ s.active = true := by
  induction ss with
  | nil => simp [mostRecentActive] at h
  | cons a rest ih =>
    by_cases ha : a.active = true
    · rcases hrest : mostRecentActive rest with _ | t <;>
        simp only [mostRecentActive, hrest, if_pos ha] at h
      · simp at h; subst h; exact ⟨List.mem_cons_self a rest, ha⟩
      · split at h
        · simp at h; subst h
          obtain ⟨hm, hact⟩ := ih hrest
          exact ⟨List.mem_cons_of_mem a hm, hact⟩
        · simp at h; subst h; exact ⟨List.mem_cons_self a rest, ha⟩
    · simp only [mostRecentActive, if_neg ha] at h
      obtain ⟨hm, hact⟩ := ih h
      exact ⟨List.mem_cons_of_mem a hm, hact⟩

lemma minActiveStart_attained (ss : List ExitSession) (t : Int)
    (h : minActiveStart ss = some t) :
    ∃ s ∈ ss, s.active = true ∧ s.startedAt = t := by
  induction ss generalizing t with
  | nil => simp [minActiveStart] at h
  | cons a rest ih =>
    rcases hrest : minActiveStart rest with _ | m <;>
      simp only [minActiveStart, hrest] at h
    · split at h
      · simp at h
        exact ⟨a, List.mem_cons_self a rest, by assumption, h⟩
      · simp at h
    · split at h
      · simp at h
        rcases le_total a.startedAt m with hle | hle
        · refine ⟨a, List.mem_cons_self a rest, by assumption, ?_⟩
          omega
        · obtain ⟨s, hs, hact, hstart⟩ := ih m hrest
          refine ⟨s, List.mem_cons_of_mem a hs, hact, ?_⟩
          omega
      · simp at h; subst h
        obtain ⟨s, hs, hact, hstart⟩ := ih m hrest
        exact ⟨s, List.mem_cons_of_mem a hs, hact, hstart⟩

lemma minActiveStart_isSome (ss : List ExitSession) (h : countActive ss ≠ 0) :
    ∃ t, minActiveStart ss = some t := by
  induction ss with
  | nil => simp [countActive] at h
  | cons a rest ih =>
    by_cases ha : a.active = true
    · rcases hrest : minActiveStart rest with _ | m <;>
        simp only [minActiveStart, hrest, if_pos ha] <;> exact ⟨_, rfl⟩
    · have hz : countActive rest ≠ 0 := by
        simp only [countActive, List.countP_cons] at h
        simp only [countActive]
        simpa [ha] using h
      obtain ⟨m, hm⟩ := ih hz
      refine ⟨m, ?_⟩
      simp only [minActiveStart, hm, if_neg ha]

lemma minActiveStart_le (ss : List ExitSession) (t : Int)
    (h : minActiveStart ss = some t) :
    ∀ s ∈ ss, s.active = true → t ≤ s.startedAt := by
  induction ss generalizing t with
  | nil => simp
  | cons a rest ih =>
    intro s hs hact
    rcases hrest : minActiveStart rest with _ | m <;>
      simp only [minActiveStart, hrest] at h
    · split at h
      · simp at h
        rcases List.mem_cons.mp hs with hsa | hsr
        · subst hsa; omega
        · exfalso
          obtain ⟨x, hx, hxact, hxs⟩ :
              ∃ x ∈ rest, x.active = true ∧ x.startedAt = s.startedAt :=
            ⟨s, hsr, hact, rfl⟩
          have hz : countActive rest ≠ 0 := by
            simp only [countActive]
            have : 0 < List.countP (fun s => s.active) rest :=
              List.countP_pos.mpr ⟨x, hx, by simpa using hxact⟩
            omega
          obtain ⟨u, hu⟩ := minActiveStart_isSome rest hz
          rw [hu] at hrest
          exact Option.noConfusion hrest
      · simp at h
    · split at h
      · simp at h
        have hrec := ih m hrest
        rcases List.mem_cons.mp hs with hsa | hsr
        · subst hsa; omega
        · have := hrec s hsr hact; omega
      · simp at h; subst h
        rcases List.mem_cons.mp hs with hsa | hsr
        · subst hsa
          rename_i hcond
          exact absurd hact hcond
        · exact ih m hrest s hsr hact

lemma closeFirstWith_count (ss : List ExitSession) (t : Int)
    (h : ∃ s ∈ ss, s.active = true ∧ s.startedAt = t) :
    countActive (closeFirstWith t ss) + 1 = countActive ss := by
  induction ss with
  | nil => simp at h
  | cons a rest ih =>
    by_cases hcond : a.active = true ∧ a.startedAt = t
    · simp only [closeFirstWith, if_pos hcond]
      simp only [countActive, List.countP_cons, hcond.1]
      simp
    · simp only [closeFirstWith, if_neg hcond]
      obtain ⟨s, hs, hact, hstart⟩ := h
      rcases List.mem_cons.mp hs with hsa | hsr
      · subst hsa; exact absurd ⟨hact, hstart⟩ hcond
      · have := ih ⟨s, hsr, hact, hstart⟩
        simp only [countActive, List.countP_cons] at this ⊢
        omega

lemma closeOldestActive_count (ss : List ExitSession) (h : countActive ss ≠ 0) :
    countActive (closeOldestActive ss) + 1 = countActive ss := by
  obtain ⟨t, ht⟩ := minActiveStart_isSome ss h
  unfold closeOldestActive
  rw [ht]
  exact closeFirstWith_count ss t (minActiveStart_attained ss t ht)

lemma closeKOldest_count (k : Nat) (ss : List ExitSession)
    (h : k ≤ countActive ss) :
    countActive (closeKOldest k ss) = countActive ss - k := by
  induction k generalizing ss with
  | zero => simp [closeKOldest]
  | succ n ih =>
    simp only [closeKOldest]
    have hne : countActive ss ≠ 0 := by omega
    have hstep := closeOldestActive_count ss hne
    rw [ih (closeOldestActive ss) (by omega)]
    omega

/-- After `enforce_session_limit` at most `MAX_ACTIVE_VEHICLE_EXIT_SESSIONS`
exit sessions remain active. -/
lemma countActive_enforce_le (ss : List ExitSession) :
    countActive (enforce_session_limit ss) ≤ MAX_ACTIVE_VEHICLE_EXIT_SESSIONS := by
  simp only [enforce_session_limit]
  split
  · rename_i hgt
    rw [closeKOldest_count _ _ (by omega)]
    omega
  · omega

@[simp] lemma countActive_create (now : Int) (camera : Option String)
    (key : String) (ss : List ExitSession) :
    countActive (create_vehicle_exit_session now camera key ss) = countActive ss + 1 := by
  simp [create_vehicle_exit_session, countActive]

lemma countActive_map_le (l : List ExitSession) (f : ExitSession → ExitSession)
    (h : ∀ x, (f x).active = true → x.active = true) :
    countActive (l.map f) ≤ countActive l := by
  induction l with
  | nil => simp [countActive]
  | cons a rest ih =>
    simp only [countActive, List.map_cons, List.countP_cons] at ih ⊢
    by_cases hfa : (f a).active = true
    · have ha := h a hfa
      rw [if_pos (by simpa using hfa), if_pos (by simpa using ha)]
      omega
    · rw [if_neg (by simpa using hfa)]
      rcases ha : a.active
      · rw [if_neg (by simp [ha])]
        omega
      · rw [if_pos (by simp [ha])]
        omega

lemma countActive_close_expired_le (now : Int) (db : DB) :
    countActive ((close_expired_sessions now db).exitSessions) ≤
      countActive db.exitSessions := by
  unfold close_expired_sessions
  apply countActive_map_le
  intro x
  split
  · simp
  · exact fun h => h

lemma countActive_apply_left_le (now : Int) (ss : List ExitSession) :
    countActive ((apply_left_exit_decrement now ss).2) ≤ countActive ss := by
  unfold apply_left_exit_decrement
  split
  · simp
  · rename_i s hs
    split
    · simp only
      apply countActive_map_le
      intro x
      split
      · simp
      · exact fun h => h
    · split
      · simp only
        apply countActive_map_le
        intro x
        split
        · simp
        · exact fun h => h
      · simp only
        apply countActive_map_le
        intro x
        split
        · simp
        · exact fun h => h

/-- Across one `handle_counting` call the number of active exit sessions is
bounded: enforcement (at the start of the call) brings it to at most
`MAX_ACTIVE_VEHICLE_EXIT_SESSIONS`, and the vehicle-OUT branch can then add
one more session — so the call leaves at most `MAX + 1` active (or whatever
the caller already had when the event is ignored). -/
lemma handle_counting_active_le (now : Int) (p : Payload) (ocr : Bool) (db : DB) :
    countActive (handle_counting now p ocr db).exitSessions ≤
      max (MAX_ACTIVE_VEHICLE_EXIT_SESSIONS + 1) (countActive db.exitSessions) := by
  have h1 := countActive_enforce_le
    ((close_expired_sessions now (cleanup_tracks now db)).exitSessions)
  have h2 := countActive_apply_left_le now
    (enforce_session_limit ((close_expired_sessions now (cleanup_tracks now db)).exitSessions))
  simp only [handle_counting]
  repeat' split
  all_goals try simp
  all_goals omega

/-- Folding any event sequence keeps at most `MAX + 1` exit sessions active,
starting from the fresh store. -/
lemma foldl_active_le (evs : List (Int × Payload × Bool)) (db : DB)
    (h : countActive db.exitSessions ≤ MAX_ACTIVE_VEHICLE_EXIT_SESSIONS + 1) :
    countActive ((evs.foldl (fun acc e => handle_counting e.1 e.2.1 e.2.2 acc) db).exitSessions) ≤
      MAX_ACTIVE_VEHICLE_EXIT_SESSIONS + 1 := by
  induction evs generalizing db with
  | nil => exact h
  | cons e rest ih =>
    apply ih
    exact le_trans (handle_counting_active_le e.1 e.2.1 e.2.2 db) (max_le le_rfl h)

/-- Claim C5 counterexample: with exactly `MAX_ACTIVE_VEHICLE_EXIT_SESSIONS`
(= 2) unexpired active sessions in the store, one confirmed vehicle OUT
leaves 3 sessions active — the claimed bound does not hold immediately after
a creation, because `enforce_session_limit` runs at the start of
`handle_counting`, before `create_vehicle_exit_session`. -/
theorem C5_counterexample_three_active :
    countActive
      (handle_counting 210
        { camera := some "cam1", label := some "truck", pid := some "9",
          eventId := none, direction := some "out", afterId := none,
          afterEventId := none, afterDirection := none, box := none,
          afterBox := none, plate := none, plateText := none,
          plateNumber := none, ocrPlate := none, licensePlate := none }
        false
        { peopleCount := 0, vehicleCount := 1, tracks := fun _ => none,
          streaks := fun _ => ("", 0),
          exitSessions := [⟨1, 190, none, "k1", true, 0, 4⟩,
            ⟨2, 200, none, "k2", true, 0, 4⟩],
          counterEvents := [], personSessions := [], vehicleSessions := [],
          attributions := [] }).exitSessions =
      MAX_ACTIVE_VEHICLE_EXIT_SESSIONS + 1 ∧
    MAX_ACTIVE_VEHICLE_EXIT_SESSIONS + 1 > MAX_ACTIVE_VEHICLE_EXIT_SESSIONS := by
  constructor <;> decide

/-- Claim C5 (amended): enforcement runs at the start of each counting
operation and force-closes the oldest excess sessions (the closed session has
minimal `started_at` among the active ones), so at most
`MAX_ACTIVE_VEHICLE_EXIT_SESSIONS` are active after enforcement and at most
`MAX + 1` immediately after a creation; from the fresh store the count never
exceeds `MAX + 1`. -/
theorem C5_session_cap :
    (∀ ss : List ExitSession,
      countActive (enforce_session_limit ss) ≤ MAX_ACTIVE_VEHICLE_EXIT_SESSIONS) ∧
    (∀ (now : Int) (p : Payload) (ocr : Bool) (db : DB),
      countActive (handle_counting now p ocr db).exitSessions ≤
        max (MAX_ACTIVE_VEHICLE_EXIT_SESSIONS + 1) (countActive db.exitSessions)) ∧
    (∀ evs : List (Int × Payload × Bool),
      countActive ((evs.foldl (fun acc e => handle_counting e.1 e.2.1 e.2.2 acc)
          initDB).exitSessions) ≤ MAX_ACTIVE_VEHICLE_EXIT_SESSIONS + 1) ∧
    (∀ (ss : List ExitSession) (t : Int), minActiveStart ss = some t →
      ∀ s ∈ ss, s.active = true → t ≤ s.startedAt) := by
  refine ⟨countActive_enforce_le, handle_counting_active_le, ?_, minActiveStart_le⟩
  intro evs
  exact foldl_active_le evs initDB (by simp [initDB, countActive])

/-- Witness for C5 at concrete inputs: oldest-first selection on a concrete
table, and the step bound at a concrete state. -/
theorem C5_witness :
    (minActiveStart [⟨1, 190, none, "k1", true, 0, 4⟩, ⟨2, 200, none, "k2", true, 0, 4⟩] =
        some 190 ∧
      (⟨2, 200, none, "k2", true, 0, 4⟩ : ExitSession).active = true) ∧
    (190 : Int) ≤ (⟨2, 200, none, "k2", true, 0, 4⟩ : ExitSession).startedAt := by
  refine ⟨⟨by decide, by decide⟩, ?_⟩
  exact C5_session_cap.2.2.2 [⟨1, 190, none, "k1", true, 0, 4⟩, ⟨2, 200, none, "k2", true, 0, 4⟩]
    190 (by decide) ⟨2, 200, none, "k2", true, 0, 4⟩ (by decide) (by decide)

@[simp] lemma update_counters_peopleCount (pc vc : Int) (db : DB) :
    (update_counters pc vc db).peopleCount = pc := rfl

@[simp] lemma update_counters_vehicleCount (pc vc : Int) (db : DB) :
    (update_counters pc vc db).vehicleCount = vc := rfl

/-- One `handle_counting` call keeps both counters non-negative: increments
add one and every decrement is written as `max 0 (count - 1)`. -/
lemma handle_counting_nonneg (now : Int) (p : Payload) (ocr : Bool) (db : DB)
    (hp : 0 ≤ db.peopleCount) (hv : 0 ≤ db.vehicleCount) :
    0 ≤ (handle_counting now p ocr db).peopleCount ∧
      0 ≤ (handle_counting now p ocr db).vehicleCount := by
  simp only [handle_counting]
  repeat' split
  all_goals try simp
  all_goals omega

/-- Claim C3: starting from the initial counters `(0, 0)`, after any sequence
of counting operations both stored counters are non-negative, whatever the
order and number of decrements. -/
theorem C3_counters_nonneg :
    ∀ evs : List (Int × Payload × Bool),
      0 ≤ ((evs.foldl (fun acc e => handle_counting e.1 e.2.1 e.2.2 acc)
          initDB).peopleCount) ∧
      0 ≤ ((evs.foldl (fun acc e => handle_counting e.1 e.2.1 e.2.2 acc)
          initDB).vehicleCount) := by
  intro evs
  suffices h : ∀ db : DB, 0 ≤ db.peopleCount → 0 ≤ db.vehicleCount →
      0 ≤ ((evs.foldl (fun acc e => handle_counting e.1 e.2.1 e.2.2 acc) db).peopleCount) ∧
      0 ≤ ((evs.foldl (fun acc e => handle_counting e.1 e.2.1 e.2.2 acc) db).vehicleCount) by
    exact h initDB le_rfl le_rfl
  induction evs with
  | nil => intro db hp hv; exact ⟨hp, hv⟩
  | cons e rest ih =>
    intro db hp hv
    obtain ⟨hp2, hv2⟩ := handle_counting_nonneg e.1 e.2.1 e.2.2 db hp hv
    exact ih (handle_counting e.1 e.2.1 e.2.2 db) hp2 hv2

/-! Positive projection lemmas: what each operation writes. -/

@[simp] lemma log_counter_event_events (now : Int) (lbl dir : String)
    (delta newCount : Int) (key source note : String) (db : DB) :
    (log_counter_event now lbl dir delta newCount key source note db).counterEvents =
      db.counterEvents ++ [⟨now, lbl, dir, delta, newCount, key, source, note⟩] := rfl

@[simp] lemma close_expired_sessions_sessions (now : Int) (db : DB) :
    (close_expired_sessions now db).exitSessions =
      db.exitSessions.map (fun s =>
        if s.active ∧ s.startedAt < now - LEFT_EXIT_WINDOW_SECONDS
        then { s with active := false } else s) := rfl

lemma cleanup_tracks_tracks_some (now : Int) (db : DB) (key : String) (t0 : Track)
    (h : db.tracks key = some t0) (h2 : ¬ t0.lastSeen < now - TRACK_TTL_SECONDS) :
    (cleanup_tracks now db).tracks key = some t0 := by
  unfold cleanup_tracks
  simp [h, h2]

lemma upsert_track_tracks_self_some (now : Int) (key lbl : String)
    (side : Option String) (db : DB) (t0 : Track) (h : db.tracks key = some t0) :
    (upsert_track now key lbl side db).tracks key =
      some ⟨lbl, now, side, t0.countedIn, t0.countedOut⟩ := by
  unfold upsert_track
  rw [h]
  simp

lemma upsert_track_tracks_self_none (now : Int) (key lbl : String)
    (side : Option String) (db : DB) (h : db.tracks key = none) :
    (upsert_track now key lbl side db).tracks key =
      some ⟨lbl, now, side, false, false⟩ := by
  unfold upsert_track
  rw [h]
  simp

lemma mark_track_counted_tracks_in (now : Int) (key : String) (db : DB) (t : Track)
    (h : db.tracks key = some t) :
    (mark_track_counted now key "in" db).tracks key =
      some { t with countedIn := true, lastSeen := now } := by
  unfold mark_track_counted
  rw [if_neg (by simp)]
  rw [h]
  simp

lemma mark_track_counted_tracks_out (now : Int) (key : String) (db : DB) (t : Track)
    (h : db.tracks key = some t) :
    (mark_track_counted now key "out" db).tracks key =
      some { t with countedOut := true, lastSeen := now } := by
  unfold mark_track_counted
  rw [if_neg (by simp)]
  rw [h]
  simp

@[simp] lemma close_vehicle_session_sessions (now : Int)
    (vk pn : Option String) (vt : String) (db : DB) :
    ((close_vehicle_session now vk pn vt db).2).vehicleSessions =
      (match latestBy (fun s => s.enteredAt)
          (db.vehicleSessions.filter
            (fun s => decide (s.exitedAt = none) && vehicleMatch vk pn vt s)) with
       | none => db.vehicleSessions
       | some s => db.vehicleSessions.map (fun x =>
           if x.sid = s.sid then { x with exitedAt := some now } else x)) := by
  unfold close_vehicle_session
  rcases h : latestBy (fun s => s.enteredAt)
      (db.vehicleSessions.filter
        (fun s => decide (s.exitedAt = none) && vehicleMatch vk pn vt s)) with _ | s <;>
    simp [h]

/-- When the payload already carries an authoritative direction,
`infer_direction` trusts it and leaves the state untouched. -/
lemma infer_direction_frigate (now : Int) (p : Payload) (key : String) (db : DB)
    (hd : p.direction = some "in" ∨ p.direction = some "out") :
    infer_direction now p key db = ((p.direction, "frigate", none), db) := by
  rcases hd with h | h <;> simp [infer_direction, h]

@[simp] lemma cleanup_tracks_tracks (now : Int) (db : DB) (k : String) :
    (cleanup_tracks now db).tracks k =
      (match db.tracks k with
       | none => none
       | some t => if t.lastSeen < now - TRACK_TTL_SECONDS then none else some t) := rfl

@[simp] lemma upsert_track_tracks_self (now : Int) (key lbl : String)
    (side : Option String) (db : DB) :
    (upsert_track now key lbl side db).tracks key =
      some (match db.tracks key with
            | none => ⟨lbl, now, side, false, false⟩
            | some t => ⟨lbl, now, side, t.countedIn, t.countedOut⟩) := by
  unfold upsert_track
  rcases h : db.tracks key with _ | t <;> simp [h]

@[simp] lemma mark_out_tracks (now : Int) (key : String) (db : DB) :
    (mark_track_counted now key "out" db).tracks key =
      (match db.tracks key with
       | none => none
       | some t => some { t with countedOut := true, lastSeen := now }) := by
  unfold mark_track_counted
  rw [if_neg (by simp)]
  rcases h : db.tracks key with _ | t <;> simp [h]

@[simp] lemma mark_in_tracks (now : Int) (key : String) (db : DB) :
    (mark_track_counted now key "in" db).tracks key =
      (match db.tracks key with
       | none => none
       | some t => some { t with countedIn := true, lastSeen := now }) := by
  unfold mark_track_counted
  rw [if_neg (by simp)]
  rcases h : db.tracks key with _ | t <;> simp [h]

/-- Claim C2: on a confirmed vehicle OUT for a track whose `counted_out` flag
is unset, the engine decrements `vehicle_count` (floored at 0), also
unconditionally decrements `people_count` (floored at 0) with a distinct
audit row noted `driver_exit_assumed_right`, opens a new active
VehicleExitSession for the track, closes the matching VehicleSession, and
sets the track's `counted_out` flag. -/
theorem C2_vehicle_out_effects
    (now : Int) (p : Payload) (ocr : Bool) (db : DB) (key lbl : String) (t0 : Track)
    (hkey : get_track_key p = some key)
    (hd : p.direction = some "out")
    (hlbl : normalize_object_label p.label = lbl)
    (hveh : lbl = "car" ∨ lbl = "truck")
    (htr : db.tracks key = some t0)
    (httl : ¬ t0.lastSeen < now - TRACK_TTL_SECONDS)
    (hflag : t0.countedOut = false) :
    (handle_counting now p ocr db).peopleCount = max 0 (db.peopleCount - 1) ∧
    (handle_counting now p ocr db).vehicleCount = max 0 (db.vehicleCount - 1) ∧
    (handle_counting now p ocr db).counterEvents =
      db.counterEvents ++
        [⟨now, lbl, "out", -1, max 0 (db.vehicleCount - 1), key, "frigate", "vehicle_out"⟩,
         ⟨now, "person", "out", -1, max 0 (db.peopleCount - 1), key, "frigate",
           "driver_exit_assumed_right"⟩] ∧
    (handle_counting now p ocr db).exitSessions =
      create_vehicle_exit_session now p.camera key
        (enforce_session_limit ((close_expired_sessions now db).exitSessions)) ∧
    (handle_counting now p ocr db).vehicleSessions =
      ((close_vehicle_session now (some key) (plate_norm_of p ocr) lbl db).2).vehicleSessions ∧
    get_track key (handle_counting now p ocr db) = some ⟨lbl, now, none, t0.countedIn, true⟩ := by
  subst hlbl
  rcases hveh with hv | hv <;>
    simp [handle_counting, hv, hkey, infer_direction_frigate now p key _ (Or.inr hd), hd,
      get_track, hflag, htr, httl]

/-- Witness for C2: a concrete truck-OUT event against a store holding the
track (flag unset) and one open vehicle session. -/
theorem C2_witness :
    get_track_key
        { camera := some "cam1", label := some "truck", pid := some "9",
          eventId := none, direction := some "out", afterId := none,
          afterEventId := none, afterDirection := none, box := none,
          afterBox := none, plate := none, plateText := none,
          plateNumber := none, ocrPlate := none, licensePlate := none } =
      some "cam1:truck:9" ∧
    (handle_counting 1001
        { camera := some "cam1", label := some "truck", pid := some "9",
          eventId := none, direction := some "out", afterId := none,
          afterEventId := none, afterDirection := none, box := none,
          afterBox := none, plate := none, plateText := none,
          plateNumber := none, ocrPlate := none, licensePlate := none }
        false
        { peopleCount := 2, vehicleCount := 1,
          tracks := fun k =>
            if k = "cam1:truck:9" then some ⟨"truck", 1000, none, false, false⟩ else none,
          streaks := fun _ => ("", 0), exitSessions := [], counterEvents := [],
          personSessions :=  [],
          vehicleSessions := [⟨1, some "cam1:truck:9", none, "truck", none, 900, "mqtt", none, none⟩],
          attributions := [] }).peopleCount =
      max 0 ((2 : Int) - 1) :=
  ⟨by decide,
   (C2_vehicle_out_effects 1001
      { camera := some "cam1", label := some "truck", pid := some "9",
        eventId := none, direction := some "out", afterId := none,
        afterEventId := none, afterDirection := none, box := none,
        afterBox := none, plate := none, plateText := none,
        plateNumber := none, ocrPlate := none, licensePlate := none }
      false
      { peopleCount := 2, vehicleCount := 1,
        tracks := fun k =>
          if k = "cam1:truck:9" then some ⟨"truck", 1000, none, false, false⟩ else none,
        streaks := fun _ => ("", 0), exitSessions := [], counterEvents := [],
        personSessions := [],
        vehicleSessions := [⟨1, some "cam1:truck:9", none, "truck", none, 900, "mqtt", none, none⟩],
        attributions := [] }
      "cam1:truck:9" "truck" ⟨"truck", 1000, none, false, false⟩
      (by decide) rfl (by decide) (by decide) (by decide) (by decide) rfl).1⟩

/-- Success condition of `apply_left_exit_decrement`: there is a most
recently started active session, its window has not expired, and its
allowance is not exhausted. -/
lemma apply_left_success_iff (now : Int) (ss : List ExitSession) :
    (apply_left_exit_decrement now ss).1 = true ↔
      (∃ s, mostRecentActive ss = some s ∧
        now - s.startedAt ≤ LEFT_EXIT_WINDOW_SECONDS ∧
        s.leftPersonDecrements < s.maxLeftPersonDecrements) := by
  rcases h : mostRecentActive ss with _ | s
  · simp [apply_left_exit_decrement, h]
  · simp only [apply_left_exit_decrement, h]
    by_cases hwin : now - s.startedAt > LEFT_EXIT_WINDOW_SECONDS
    · rw [if_pos hwin]
      simp only [Bool.false_eq_true, false_iff, not_exists, not_and]
      rintro s2 hs2
      injection hs2 with hs2
      subst hs2
      omega
    · rw [if_neg hwin]
      by_cases hdec : s.leftPersonDecrements ≥ s.maxLeftPersonDecrements
      · rw [if_pos hdec]
        simp only [Bool.false_eq_true, false_iff, not_exists, not_and]
        rintro s2 hs2
        injection hs2 with hs2
        subst hs2
        omega
      · rw [if_neg hdec]
        simp only [true_iff]
        exact ⟨s, rfl, by omega, by omega⟩

/-- A successful `apply_left_exit_decrement` counts exactly one more
decrement against the most recently started active session. -/
lemma apply_left_consumes (now : Int) (ss : List ExitSession) (s : ExitSession)
    (h : mostRecentActive ss = some s)
    (hfst : (apply_left_exit_decrement now ss).1 = true) :
    ∃ x ∈ (apply_left_exit_decrement now ss).2, x.sessionId = s.sessionId ∧
      x.leftPersonDecrements = s.leftPersonDecrements + 1 := by
  have hmem := (mostRecentActive_spec ss s h).1
  simp only [apply_left_exit_decrement, h] at hfst ⊢
  split at hfst
  · simp at hfst
  · split at hfst
    · simp at hfst
    · rename_i hwin hdec
      rw [if_neg hwin, if_neg hdec]
      simp only
      refine ⟨{ s with leftPersonDecrements := s.leftPersonDecrements + 1 }, ?_, by simp, by simp⟩
      have := List.mem_map_of_mem
        (fun x => if x.sessionId = s.sessionId
          then { x with leftPersonDecrements := x.leftPersonDecrements + 1 } else x) hmem
      simpa using this

/-- A failed `apply_left_exit_decrement` that did find a most recent active
session (expired window or exhausted allowance) closes that session. -/
lemma apply_left_closes (now : Int) (ss : List ExitSession) (s : ExitSession)
    (h : mostRecentActive ss = some s)
    (hfst : (apply_left_exit_decrement now ss).1 = false) :
    ∀ x ∈ (apply_left_exit_decrement now ss).2, x.sessionId = s.sessionId →
      x.active = false := by
  simp only [apply_left_exit_decrement, h] at hfst ⊢
  split at hfst
  · rename_i hwin
    rw [if_pos hwin]
    simp only
    rintro x hx hsid
    obtain ⟨y, hy, rfl⟩ := List.mem_map.mp hx
    by_cases hys : y.sessionId = s.sessionId <;> simp_all
  · split at hfst
    · rename_i hwin hdec
      rw [if_neg hwin, if_pos hdec]
      simp only
      rintro x hx hsid
      obtain ⟨y, hy, rfl⟩ := List.mem_map.mp hx
      by_cases hys : y.sessionId = s.sessionId <;> simp_all
    · simp at hfst

/-- Claim C6: a confirmed person OUT decrements `people_count` (floored at
0), updates the exit-session pool exactly by one `apply_left_exit_decrement`
call on the enforced pool, and writes one audit row whose note is
`left_side_exit_after_vehicle` when the decrement was consumed and
`person_out` otherwise; the decrement succeeds exactly when the most
recently started active session is within its window with allowance
remaining (consuming one decrement of that session), and a failure with a
most recent active session (expired or exhausted) closes that session. -/
theorem C6_person_out_leniency
    (now : Int) (p : Payload) (ocr : Bool) (db : DB) (key : String) (t0 : Track)
    (hkey : get_track_key p = some key)
    (hd : p.direction = some "out")
    (hlbl : normalize_object_label p.label = "person")
    (htr : db.tracks key = some t0)
    (httl : ¬ t0.lastSeen < now - TRACK_TTL_SECONDS)
    (hflag : t0.countedOut = false) :
    (handle_counting now p ocr db).peopleCount = max 0 (db.peopleCount - 1) ∧
    (handle_counting now p ocr db).exitSessions =
      (apply_left_exit_decrement now
        (enforce_session_limit ((close_expired_sessions now db).exitSessions))).2 ∧
    (handle_counting now p ocr db).counterEvents =
      db.counterEvents ++
        [⟨now, "person", "out", -1, max 0 (db.peopleCount - 1), key, "frigate",
          if (apply_left_exit_decrement now
              (enforce_session_limit ((close_expired_sessions now db).exitSessions))).1 = true
          then "left_side_exit_after_vehicle" else "person_out"⟩] ∧
    ((apply_left_exit_decrement now
        (enforce_session_limit ((close_expired_sessions now db).exitSessions))).1 = true ↔
      (∃ s, mostRecentActive
          (enforce_session_limit ((close_expired_sessions now db).exitSessions)) = some s ∧
        now - s.startedAt ≤ LEFT_EXIT_WINDOW_SECONDS ∧
        s.leftPersonDecrements < s.maxLeftPersonDecrements)) ∧
    (∀ s, mostRecentActive
        (enforce_session_limit ((close_expired_sessions now db).exitSessions)) = some s →
      (apply_left_exit_decrement now
        (enforce_session_limit ((close_expired_sessions now db).exitSessions))).1 = true →
      ∃ x ∈ (apply_left_exit_decrement now
        (enforce_session_limit ((close_expired_sessions now db).exitSessions))).2,
        x.sessionId = s.sessionId ∧
        x.leftPersonDecrements = s.leftPersonDecrements + 1) ∧
    (∀ s, mostRecentActive
        (enforce_session_limit ((close_expired_sessions now db).exitSessions)) = some s →
      (apply_left_exit_decrement now
        (enforce_session_limit ((close_expired_sessions now db).exitSessions))).1 = false →
      ∀ x ∈ (apply_left_exit_decrement now
        (enforce_session_limit ((close_expired_sessions now db).exitSessions))).2,
        x.sessionId = s.sessionId → x.active = false) := by
  refine ⟨?_, ?_, ?_, apply_left_success_iff now _,
    fun s hs hf => apply_left_consumes now _ s hs hf,
    fun s hs hf => apply_left_closes now _ s hs hf⟩ <;>
  simp [handle_counting, hlbl, hkey, infer_direction_frigate now p key _ (Or.inr hd), hd,
    get_track, hflag, htr, httl]

/-- Witness for C6: a concrete person-OUT event against a store holding the
track (flag unset) and one active in-window exit session with allowance. -/
theorem C6_witness :
    get_track_key
        { camera := some "cam1", label := some "person", pid := some "5",
          eventId := none, direction := some "out", afterId := none,
          afterEventId := none, afterDirection := none, box := none,
          afterBox := none, plate := none, plateText := none,
          plateNumber := none, ocrPlate := none, licensePlate := none } =
      some "cam1:person:5" ∧
    (handle_counting 1000
        { camera := some "cam1", label := some "person", pid := some "5",
          eventId := none, direction := some "out", afterId := none,
          afterEventId := none, afterDirection := none, box := none,
          afterBox := none, plate := none, plateText := none,
          plateNumber := none, ocrPlate := none, licensePlate := none }
        false
        { peopleCount := 3, vehicleCount := 0,
          tracks := fun k =>
            if k = "cam1:person:5" then some ⟨"person", 999, none, false, false⟩ else none,
          streaks := fun _ => ("", 0),
          exitSessions := [⟨1, 995, none, "veh", true, 0, 4⟩],
          counterEvents := [], personSessions := [], vehicleSessions := [],
          attributions := [] }).peopleCount =
      max 0 ((3 : Int) - 1) :=
  ⟨by decide,
   (C6_person_out_leniency 1000
      { camera := some "cam1", label := some "person", pid := some "5",
        eventId := none, direction := some "out", afterId := none,
        afterEventId := none, afterDirection := none, box := none,
        afterBox := none, plate := none, plateText := none,
        plateNumber := none, ocrPlate := none, licensePlate := none }
      false
      { peopleCount := 3, vehicleCount := 0,
        tracks := fun k =>
          if k = "cam1:person:5" then some ⟨"person", 999, none, false, false⟩ else none,
        streaks := fun _ => ("", 0),
        exitSessions := [⟨1, 995, none, "veh", true, 0, 4⟩],
        counterEvents := [], personSessions := [], vehicleSessions := [],
        attributions := [] }
      "cam1:person:5" ⟨"person", 999, none, false, false⟩
      (by decide) rfl (by decide) (by decide) (by decide) rfl).1⟩

@[simp] lemma open_person_session_fst (now : Int) (personKey camera : Option String)
    (source : String) (db : DB) :
    (open_person_session now personKey camera source db).1 =
      some (db.personSessions.length + 1) := rfl

@[simp] lemma open_vehicle_session_fst (now : Int) (vehicleKey plateNorm : Option String)
    (vtype : String) (camera : Option String) (source : String) (db : DB) :
    (open_vehicle_session now vehicleKey plateNorm vtype camera source db).1 =
      some (db.vehicleSessions.length + 1) := rfl

set_option maxHeartbeats 3200000 in
/-- After `handle_counting` processes an authoritative direction `d` for an
allowed label, the track row exists with `last_seen = now` and the
`counted_in` / `counted_out` flag for `d` set (set by `mark_track_counted`
when the crossing is counted, or already set and preserved by
`upsert_track` when the event is a duplicate). -/
lemma handle_counting_sets_flag (now : Int) (p : Payload) (ocr : Bool) (db : DB)
    (key lbl d : String)
    (hkey : get_track_key p = some key)
    (hd : p.direction = some d)
    (hdio : d = "in" ∨ d = "out")
    (hlbl : normalize_object_label p.label = lbl)
    (hallow : lbl = "person" ∨ lbl = "car" ∨ lbl = "truck") :
    ∃ t', get_track key (handle_counting now p ocr db) = some t' ∧
      t'.lastSeen = now ∧
      (d = "in" → t'.countedIn = true) ∧ (d = "out" → t'.countedOut = true) := by
  subst hlbl
  rcases hc : db.tracks key with _ | t0
  · rcases hdio with hdv | hdv <;> subst hdv <;>
      rcases hallow with hv | hv | hv <;>
        simp [handle_counting, hv, hkey, get_track,
          infer_direction_frigate now p key _ (by simp [hd]), hd, hc]
  · by_cases httl : t0.lastSeen < now - TRACK_TTL_SECONDS <;>
    rcases hci : t0.countedIn with _ | _ <;>
    rcases hco : t0.countedOut with _ | _ <;>
    rcases hdio with hdv | hdv <;> subst hdv <;>
      rcases hallow with hv | hv | hv <;>
        simp [handle_counting, hv, hkey, get_track,
          infer_direction_frigate now p key _ (by simp [hd]), hd, hc, hci, hco, httl]

/-- When the track's flag for the authoritative direction `d` is already set
(and the track is within its TTL), `handle_counting` changes neither
counter. -/
lemma handle_counting_flagged_unchanged (now : Int) (p : Payload) (ocr : Bool)
    (db : DB) (key lbl d : String) (t0 : Track)
    (hkey : get_track_key p = some key)
    (hd : p.direction = some d)
    (hdio : d = "in" ∨ d = "out")
    (hlbl : normalize_object_label p.label = lbl)
    (hallow : lbl = "person" ∨ lbl = "car" ∨ lbl = "truck")
    (htr : db.tracks key = some t0)
    (httl : ¬ t0.lastSeen < now - TRACK_TTL_SECONDS)
    (hflag : (d = "in" → t0.countedIn = true) ∧ (d = "out" → t0.countedOut = true)) :
    (handle_counting now p ocr db).peopleCount = db.peopleCount ∧
    (handle_counting now p ocr db).vehicleCount = db.vehicleCount := by
  subst hlbl
  obtain ⟨hfin, hfout⟩ := hflag
  rcases hdio with hdv | hdv <;> subst hdv <;>
    [have hci := hfin rfl; have hco := hfout rfl] <;>
    rcases hallow with hv | hv | hv <;>
      simp [handle_counting, hv, hkey, get_track,
        infer_direction_frigate now p key _ (by simp [hd]), hd, htr, httl, *]

/-- Claim C4: a confirmed crossing mutates a counter only when the track's
`counted_in` / `counted_out` flag for that direction is unset, the flag is
set as part of the counting action, and delivering the same confirmed
direction again leaves both counters unchanged (idempotence against
duplicate delivery). -/
theorem C4_counting_idempotent (now1 now2 : Int) (p : Payload) (ocr1 ocr2 : Bool)
    (db : DB) (key lbl d : String)
    (hkey : get_track_key p = some key)
    (hd : p.direction = some d)
    (hdio : d = "in" ∨ d = "out")
    (hlbl : normalize_object_label p.label = lbl)
    (hallow : lbl = "person" ∨ lbl = "car" ∨ lbl = "truck")
    (hwithin : ¬ now1 < now2 - TRACK_TTL_SECONDS) :
    (∀ t0, db.tracks key = some t0 → ¬ t0.lastSeen < now1 - TRACK_TTL_SECONDS →
      (d = "in" → t0.countedIn = true) → (d = "out" → t0.countedOut = true) →
      (handle_counting now1 p ocr1 db).peopleCount = db.peopleCount ∧
      (handle_counting now1 p ocr1 db).vehicleCount = db.vehicleCount) ∧
    (∃ t', get_track key (handle_counting now1 p ocr1 db) = some t' ∧
      (d = "in" → t'.countedIn = true) ∧ (d = "out" → t'.countedOut = true)) ∧
    (handle_counting now2 p ocr2 (handle_counting now1 p ocr1 db)).peopleCount =
      (handle_counting now1 p ocr1 db).peopleCount ∧
    (handle_counting now2 p ocr2 (handle_counting now1 p ocr1 db)).vehicleCount =
      (handle_counting now1 p ocr1 db).vehicleCount := by
  obtain ⟨t', hget, hseen, hin, hout⟩ :=
    handle_counting_sets_flag now1 p ocr1 db key lbl d hkey hd hdio hlbl hallow
  refine ⟨?_, ⟨t', hget, hin, hout⟩, ?_⟩
  · intro t0 htr httl hfin hfout
    exact handle_counting_flagged_unchanged now1 p ocr1 db key lbl d t0
      hkey hd hdio hlbl hallow htr httl ⟨hfin, hfout⟩
  · exact handle_counting_flagged_unchanged now2 p ocr2 _ key lbl d t'
      hkey hd hdio hlbl hallow hget (by rw [hseen]; exact hwithin) ⟨hin, hout⟩

/-- Witness for C4: a concrete person-IN event delivered twice; the second
delivery changes neither counter. -/
theorem C4_witness :
    get_track_key
        { camera := some "cam1", label := some "person", pid := some "3",
          eventId := none, direction := some "in", afterId := none,
          afterEventId := none, afterDirection := none, box := none,
          afterBox := none, plate := none, plateText := none,
          plateNumber := none, ocrPlate := none, licensePlate := none } =
      some "cam1:person:3" ∧
    (handle_counting 1005
        { camera := some "cam1", label := some "person", pid := some "3",
          eventId := none, direction := some "in", afterId := none,
          afterEventId := none, afterDirection := none, box := none,
          afterBox := none, plate := none, plateText := none,
          plateNumber := none, ocrPlate := none, licensePlate := none }
        true
        (handle_counting 1000
          { camera := some "cam1", label := some "person", pid := some "3",
            eventId := none, direction := some "in", afterId := none,
            afterEventId := none, afterDirection := none, box := none,
            afterBox := none, plate := none, plateText := none,
            plateNumber := none, ocrPlate := none, licensePlate := none }
          true initDB)).peopleCount =
      (handle_counting 1000
        { camera := some "cam1", label := some "person", pid := some "3",
          eventId := none, direction := some "in", afterId := none,
          afterEventId := none, afterDirection := none, box := none,
          afterBox := none, plate := none, plateText := none,
          plateNumber := none, ocrPlate := none, licensePlate := none }
        true initDB).peopleCount :=
  ⟨by decide,
   (C4_counting_idempotent 1000 1005
      { camera := some "cam1", label := some "person", pid := some "3",
        eventId := none, direction := some "in", afterId := none,
        afterEventId := none, afterDirection := none, box := none,
        afterBox := none, plate := none, plateText := none,
        plateNumber := none, ocrPlate := none, licensePlate := none }
      true true initDB "cam1:person:3" "person" "in"
      (by decide) rfl (Or.inl rfl) (by decide) (Or.inl rfl) (by decide)).2.2.1⟩

set_option maxHeartbeats 1600000 in
/-- A single below-debounce observation on the opposite side of the virtual
gate line fires no crossing and appends no audit row, yet `handle_counting`
overwrites the stored `last_side` with the raw observed side, because
`upsert_track` is called with the side returned by `infer_direction` even
when the streak is below `GATE_DEBOUNCE_UPDATES`. -/
lemma handle_counting_single_observation_flips_side
    (now : Int) (p : Payload) (ocr : Bool) (db : DB)
    (key lbl side ls s0 : String) (b : List ℚ) (n0 : Nat) (t0 : Track)
    (hkey : get_track_key p = some key)
    (hd : p.direction = none)
    (hd2 : p.afterDirection = none)
    (hbox : firstBox p = some b)
    (hlen : ¬ b.length < 4)
    (hside : sideForCenter (b.getD 0 0 + b.getD 2 0 / 2) = side)
    (hlbl : normalize_object_label p.label = lbl)
    (hallow : lbl = "person" ∨ lbl = "car" ∨ lbl = "truck")
    (htr : db.tracks key = some t0)
    (httl : ¬ t0.lastSeen < now - TRACK_TTL_SECONDS)
    (hls : t0.lastSide = some ls)
    (hlsne : ¬ ls = side)
    (hstreak : db.streaks key = (s0, n0))
    (hs0 : ¬ s0 = side) :
    (handle_counting now p ocr db).tracks key =
      some ⟨lbl, now, some side, t0.countedIn, t0.countedOut⟩ ∧
    (handle_counting now p ocr db).streaks key = (side, 1) ∧
    (1 : Nat) < GATE_DEBOUNCE_UPDATES ∧
    (handle_counting now p ocr db).peopleCount = db.peopleCount ∧
    (handle_counting now p ocr db).vehicleCount = db.vehicleCount ∧
    (handle_counting now p ocr db).counterEvents = db.counterEvents := by
  simp only [List.getD_eq_getElem?_getD] at hside
  rcases hallow with hv | hv | hv <;>
    subst hlbl <;>
    simp [handle_counting, hv, hkey, get_track, infer_direction, hd, hd2, hbox, hlen,
      hside, htr, httl, hls, hlsne, hstreak, hs0, GATE_DEBOUNCE_UPDATES]

/-- Claim C1, evaluated at the failing input: a track whose stored confirmed
side is `right` receives one observation on the left of the gate line
(streak 1, below `GATE_DEBOUNCE_UPDATES` = 2).  No crossing fires and no
audit row is written, but the stored `last_side` is overwritten with
`left` — the claim's "stored confirmed side is unchanged below the debounce
count" is violated by the `upsert_track` call in `handle_counting`. -/
theorem C1_below_debounce_flips_stored_side :
    (handle_counting 1001
        { camera := some "cam1", label := some "person", pid := some "7",
          eventId := none, direction := none, afterId := none,
          afterEventId := none, afterDirection := none,
          box := some [100, 50, 40, 60], afterBox := none, plate := none,
          plateText := none, plateNumber := none, ocrPlate := none,
          licensePlate := none }
        true
        { peopleCount := 3, vehicleCount := 1,
          tracks := fun k =>
            if k = "cam1:person:7" then
              some ⟨"person", 1000, some "right", false, false⟩
            else none,
          streaks := fun _ => ("", 0), exitSessions := [], counterEvents := [],
          personSessions := [], vehicleSessions := [],
          attributions := [] }).tracks "cam1:person:7" =
      some ⟨"person", 1001, some "left", false, false⟩ ∧
    (handle_counting 1001
        { camera := some "cam1", label := some "person", pid := some "7",
          eventId := none, direction := none, afterId := none,
          afterEventId := none, afterDirection := none,
          box := some [100, 50, 40, 60], afterBox := none, plate := none,
          plateText := none, plateNumber := none, ocrPlate := none,
          licensePlate := none }
        true
        { peopleCount := 3, vehicleCount := 1,
          tracks := fun k =>
            if k = "cam1:person:7" then
              some ⟨"person", 1000, some "right", false, false⟩
            else none,
          streaks := fun _ => ("", 0), exitSessions := [], counterEvents := [],
          personSessions := [], vehicleSessions := [],
          attributions := [] }).streaks "cam1:person:7" = ("left", 1) ∧
    (1 : Nat) < GATE_DEBOUNCE_UPDATES ∧
    (handle_counting 1001
        { camera := some "cam1", label := some "person", pid := some "7",
          eventId := none, direction := none, afterId := none,
          afterEventId := none, afterDirection := none,
          box := some [100, 50, 40, 60], afterBox := none, plate := none,
          plateText := none, plateNumber := none, ocrPlate := none,
          licensePlate := none }
        true
        { peopleCount := 3, vehicleCount := 1,
          tracks := fun k =>
            if k = "cam1:person:7" then
              some ⟨"person", 1000, some "right", false, false⟩
            else none,
          streaks := fun _ => ("", 0), exitSessions := [], counterEvents := [],
          personSessions := [], vehicleSessions := [],
          attributions := [] }).peopleCount = 3 ∧
    (handle_counting 1001
        { camera := some "cam1", label := some "person", pid := some "7",
          eventId := none, direction := none, afterId := none,
          afterEventId := none, afterDirection := none,
          box := some [100, 50, 40, 60], afterBox := none, plate := none,
          plateText := none, plateNumber := none, ocrPlate := none,
          licensePlate := none }
        true
        { peopleCount := 3, vehicleCount := 1,
          tracks := fun k =>
            if k = "cam1:person:7" then
              some ⟨"person", 1000, some "right", false, false⟩
            else none,
          streaks := fun _ => ("", 0), exitSessions := [], counterEvents := [],
          personSessions := [], vehicleSessions := [],
          attributions := [] }).vehicleCount = 1 ∧
    (handle_counting 1001
        { camera := some "cam1", label := some "person", pid := some "7",
          eventId := none, direction := none, afterId := none,
          afterEventId := none, afterDirection := none,
          box := some [100, 50, 40, 60], afterBox := none, plate := none,
          plateText := none, plateNumber := none, ocrPlate := none,
          licensePlate := none }
        true
        { peopleCount := 3, vehicleCount := 1,
          tracks := fun k =>
            if k = "cam1:person:7" then
              some ⟨"person", 1000, some "right", false, false⟩
            else none,
          streaks := fun _ => ("", 0), exitSessions := [], counterEvents := [],
          personSessions := [], vehicleSessions := [],
          attributions := [] }).counterEvents = [] := by
  have h := handle_counting_single_observation_flips_side 1001
    { camera := some "cam1", label := some "person", pid := some "7",
      eventId := none, direction := none, afterId := none,
      afterEventId := none, afterDirection := none,
      box := some [100, 50, 40, 60], afterBox := none, plate := none,
      plateText := none, plateNumber := none, ocrPlate := none,
      licensePlate := none }
    true
    { peopleCount := 3, vehicleCount := 1,
      tracks := fun k =>
        if k = "cam1:person:7" then
          some ⟨"person", 1000, some "right", false, false⟩
        else none,
      streaks := fun _ => ("", 0), exitSessions := [], counterEvents := [],
      personSessions := [], vehicleSessions := [],
      attributions := [] }
    "cam1:person:7" "person" "left" "right" "" [100, 50, 40, 60] 0
    ⟨"person", 1000, some "right", false, false⟩
    (by decide) rfl rfl rfl (by decide)
    (by norm_num [sideForCenter, VIRTUAL_GATE_LINE_X])
    (by decide) (Or.inl rfl) (by decide) (by decide) rfl (by decide) rfl (by decide)
  exact ⟨h.1, h.2.1, h.2.2.1, h.2.2.2.1, h.2.2.2.2.1, h.2.2.2.2.2⟩

end EventBridge

namespace Tripwire

/-- A non-empty boolean buffer whose entries all equal `b` is consistent and
its `all id` value is exactly `b`. -/
lemma all_const_eq (l : List Bool) (b : Bool) (hnil : l ≠ []) (h : ∀ x ∈ l, x = b) :
    (l.all (fun x => x)) = b ∧
      ((l.all (fun x => x)) = true ∨ (l.all (fun x => !x)) = true) := by
  cases b with
  | true =>
    have ht : l.all (fun x => x) = true :=
      List.all_eq_true.mpr (by intro x hx; simpa using h x hx)
    exact ⟨ht, Or.inl ht⟩
  | false =>
    have h1 : l.all (fun x => x) = false := by
      rcases List.exists_mem_of_ne_nil l hnil with ⟨x, hx⟩
      exact List.all_eq_false.mpr ⟨x, hx, by simpa using h x hx⟩
    have h2 : l.all (fun x => !x) = true :=
      List.all_eq_true.mpr (by intro x hx; simpa using h x hx)
    exact ⟨h1, Or.inr h2⟩

/-- Claim C10: a confirmed side flip arriving within `cooldown_secs` of the
object's last fired event returns no event yet still overwrites the stored
confirmed side first, so the suppressed crossing can never be reported later:
any call that does fire must start from a stored confirmed side and flip it
(and be outside the cooldown). -/
theorem C10_cooldown_swallows_crossing :
    (∀ (p : Params) (now lineY centerY : Int) (s : ObjState) (prev : Bool),
      s.confirmedSide = some prev →
      (pushBuf p.bufLen (decide (centerY ≥ lineY)) s.buf).length = p.bufLen →
      (∀ x ∈ pushBuf p.bufLen (decide (centerY ≥ lineY)) s.buf,
        x = decide (centerY ≥ lineY)) →
      decide (centerY ≥ lineY) ≠ prev →
      now - s.lastFire < p.cooldown →
      (update p now lineY centerY s).1 = none ∧
        ((update p now lineY centerY s).2).confirmedSide =
          some (decide (centerY ≥ lineY))) ∧
    (∀ (p : Params) (now lineY centerY : Int) (s s2 : ObjState) (dir : String),
      update p now lineY centerY s = (some dir, s2) →
      ∃ prev, s.confirmedSide = some prev ∧ s2.confirmedSide = some (!prev) ∧
        now - s.lastFire ≥ p.cooldown) := by
  constructor
  · intro p now lineY centerY s prev hside hlen hall hne hcool
    have hpos : 1 ≤ p.bufLen := Nat.le_max_left 1 p.bufferFrames
    have hnonempty : pushBuf p.bufLen (decide (centerY ≥ lineY)) s.buf ≠ [] := by
      intro hnil; rw [hnil] at hlen; simp at hlen; omega
    obtain ⟨hnew, hcons⟩ := all_const_eq _ _ hnonempty hall
    simp only [update]
    rw [if_neg (by omega), if_neg (not_not.mpr hcons), hside]
    simp [hnew, hne, hcool]
  · intro p now lineY centerY s s2 dir h
    simp only [update] at h
    split at h
    · simp at h
    · split at h
      · simp at h
      · split at h
        · simp at h
        · rename_i prevSide hprev
          split at h
          · simp at h
          · split at h
            · simp at h
            · rename_i hne2 hcool2
              have hsnd := congrArg Prod.snd h
              simp only at hsnd hcool2
              refine ⟨prevSide, hprev, ?_, by omega⟩
              rw [← hsnd]
              simp only
              congr 1
              cases hb2 : (pushBuf p.bufLen (decide (centerY ≥ lineY)) s.buf).all
                  (fun b => b) <;>
                cases hp2 : prevSide <;> simp_all

/-- Witness for C10: with a 3-frame buffer, cooldown 3, a track confirmed on
the upper side whose buffer fills with below-line frames 2 seconds after the
last fire returns no event but stores the flipped side. -/
theorem C10_witness :
    (∀ x ∈ pushBuf 3 (decide ((5 : ℤ) ≥ 4)) [true, true], x = decide ((5 : ℤ) ≥ 4)) ∧
    (update ⟨3, 3⟩ 12 4 5 ⟨[true, true], some false, 10, 11⟩).1 = none ∧
    ((update ⟨3, 3⟩ 12 4 5 ⟨[true, true], some false, 10, 11⟩).2).confirmedSide =
      some (decide ((5 : ℤ) ≥ 4)) :=
  ⟨by decide,
   C10_cooldown_swallows_crossing.1 ⟨3, 3⟩ 12 4 5 ⟨[true, true], some false, 10, 11⟩
     false rfl (by decide) (by decide) (by decide) (by decide)⟩

end Tripwire
